import Mathlib

/-!
# trust-edge attestation operator

A shallow embedding of the EdgeNode controller of `attestation-operator`
(`api/v1alpha1/edgenode_types.go`, `internal/controller/keylime.go`,
`internal/controller/certificates.go`, `internal/controller/edgenode_controller.go`)
and the properties of its trust bootstrap that are settled on it.

Conventions of the embedding.

* A Go `string` is a Lean `String`; a Go `[]byte` is an `Option (List UInt8)`,
  where `none` is the nil slice.
* A Go `error` is an `Option GoError`, `none` being `nil`.
* Everything outside the repository that the controller talks to (the Kubernetes
  clientset, the HTTP client, the file system, the crypto and archive libraries)
  is a collaborator: a record `Platform σ` of operations over a state `σ` the
  controller never inspects.  Every call the controller makes on a stateful
  collaborator is appended, with its answer, to a trace.
* A Go function that may panic or loop for ever returns an `Outcome`.
-/

namespace TrustEdge

/-! ## Go values -/

/-- Contents of a byte slice. -/
abbrev Bytes := List UInt8

/-- Go `[]byte`; `none` is the nil slice. -/
abbrev ByteSlice := Option Bytes

/-- The bytes a slice holds (a nil slice holds none). -/
def bytesOf : ByteSlice → Bytes
  | none => []
  | some b => b

/-- Go `[]byte(s)`: the UTF-8 encoding of a string. -/
def utf8 (s : String) : Bytes := s.data.flatMap String.utf8EncodeChar

/-- Go error values the controller produces or receives. -/
inductive GoError where
  /-- Go `errors.New(msg)` -/
  | New (msg : String)
  /-- API status error with reason NotFound -/
  | NotFound (name : String)
  /-- API status error with reason AlreadyExists -/
  | AlreadyExists (name : String)
  /-- any other error of a library or a remote service -/
  | Other (msg : String)
  deriving DecidableEq, Repr

/-- How a call of a Go function ends. -/
inductive Outcome (α : Type) where
  /-- the function returned -/
  | returned (a : α)
  /-- the function panicked -/
  | panicked (msg : String)
  /-- the function never returned -/
  | hung
  deriving DecidableEq, Repr

/-- Go `err.Error()` -/
def GoError.Error : GoError → String
  | .New msg => msg
  | .NotFound name => name ++ " not found"
  | .AlreadyExists name => name ++ " already exists"
  | .Other msg => msg

/-! ## api/v1alpha1/edgenode_types.go -/

/-- Go `type Status string` -/
abbrev Status := String

def Unregistered : Status := "unregistered"
def Registered : Status := "registered"
def Unattested : Status := "unattested"
def Attested : Status := "attested"

/-- EdgeNodeSpec defines the desired state of EdgeNode. -/
structure EdgeNodeSpec where
  UUID : String
  Status : TrustEdge.Status
  EkCert : String
  MbRefstate : String
  deriving DecidableEq, Repr

/-- EdgeNode is the Schema for the edgenodes API. -/
structure EdgeNode where
  Name : String
  Spec : EdgeNodeSpec
  deriving DecidableEq, Repr

/-! ## Kubernetes and library objects the controller handles -/

structure ServicePort where
  Name : String
  Port : Int
  deriving DecidableEq, Repr

/-- The part of `v1.Service` the controller reads. -/
structure Service where
  ClusterIP : String
  Ports : List ServicePort
  deriving DecidableEq, Repr

/-- Registrar answer, `ResponseData.Results` in keylime.go. -/
structure ResponseResults where
  AikTPM : String
  EkTPM : String
  EkCert : String
  MtlsCert : String
  IP : String
  Port : Int
  RegCount : Int
  deriving DecidableEq, Repr

/-- Go `ResponseData` in keylime.go. -/
structure ResponseData where
  Code : Int
  Status : String
  Results : ResponseResults
  deriving DecidableEq, Repr

/-- One entry of a zip archive. -/
structure ZipEntry where
  Name : String
  Data : Bytes
  deriving DecidableEq, Repr

/-- A zip archive, as the ordered list of its entries. -/
abbrev Archive := List ZipEntry

/-- One part of a multipart body. -/
inductive Part where
  /-- Go `CreateFormFile(fieldname, filename)` followed by a write of an archive -/
  | archive (fieldname filename : String) (content : Archive)
  /-- Go `CreateFormFile(fieldname, filename)` followed by a write of bytes -/
  | file (fieldname filename : String) (content : Bytes)
  /-- Go `WriteField(fieldname, value)` -/
  | field (fieldname value : String)
  deriving DecidableEq, Repr

/-- The part of an `http.Request` (and of the client sending it) the controller sets. -/
structure HTTPRequest where
  Method : String
  URL : String
  Body : List Part
  ContentType : String
  /-- client certificate of the TLS configuration, if one is set -/
  ClientCertificate : Option (String × String)
  InsecureSkipVerify : Bool
  deriving DecidableEq, Repr

/-- The part of an `http.Response` the controller reads; `Body` is what
`io.ReadAll(resp.Body)` gives. -/
structure HTTPResponse where
  StatusCode : Int
  Status : String
  Body : Except GoError Bytes

/-- Go `rbacv1.PolicyRule` -/
structure PolicyRule where
  Verbs : List String
  APIGroups : List String
  Resources : List String
  deriving DecidableEq, Repr

/-- Go `rbacv1.ClusterRole`: its name, the rest of its metadata, its rules (`none` is a
nil slice). -/
structure ClusterRole where
  Name : String
  Metadata : List (String × String)
  Rules : Option (List PolicyRule)
  deriving DecidableEq, Repr

structure Subject where
  Kind : String
  Name : String
  Namespace : String
  deriving DecidableEq, Repr

structure RoleRef where
  Kind : String
  Name : String
  deriving DecidableEq, Repr

/-- Go `rbacv1.ClusterRoleBinding` -/
structure ClusterRoleBinding where
  Name : String
  Subjects : List Subject
  RoleRef : TrustEdge.RoleRef
  deriving DecidableEq, Repr

/-- Go `certificatesv1.CertificateSigningRequestCondition` -/
structure CertificateSigningRequestCondition where
  /-- the field `Type` -/
  ConditionType : String
  Status : String
  Reason : String
  Message : String
  LastUpdateTime : Nat
  deriving DecidableEq, Repr

def CertificateApproved : String := "Approved"
def UsageDigitalSignature : String := "digital signature"
def UsageKeyEncipherment : String := "key encipherment"
def UsageClientAuth : String := "client auth"

/-- Go `certificatesv1.CertificateSigningRequest`: name, spec and status. `Conditions`
and `Certificate` are slices, `none` being nil. -/
structure CertificateSigningRequest where
  Name : String
  Request : ByteSlice
  Usages : List String
  SignerName : String
  Conditions : Option (List CertificateSigningRequestCondition)
  Certificate : ByteSlice
  deriving DecidableEq, Repr

/-- The zero value of a signing request, which the typed client returns next to an
error. -/
def CertificateSigningRequest.zero : CertificateSigningRequest :=
  { Name := "", Request := none, Usages := [], SignerName := "", Conditions := none,
    Certificate := none }

/-- An RSA private key, as generated by `rsa.GenerateKey`. -/
structure PrivateKey where
  material : Bytes
  deriving DecidableEq, Repr

/-! ## Collaborators -/

/-- Everything outside the repository the controller calls, over a state `σ` of the
outside world. Operations that only compute (or only read the local machine) do
not touch `σ`. -/
structure Platform (σ : Type) where
  /-- Go `clientset.CoreV1().Services(namespace).Get(ctx, name, ...)` -/
  ServicesGet : String → String → σ → Except GoError Service × σ
  /-- the error of `http.NewRequest(method, url, body)`, if any -/
  NewRequest : String → String → Option GoError
  /-- the error of `tls.LoadX509KeyPair(certFile, keyFile)`, if any -/
  LoadX509KeyPair : String → String → Option GoError
  /-- Go `client.Do(req)` -/
  Do : HTTPRequest → σ → Except GoError HTTPResponse × σ
  /-- Go `json.Unmarshal(body, &responseData)` -/
  Unmarshal : Bytes → Except GoError ResponseData
  /-- Go `os.ReadFile(name)` -/
  ReadFile : String → Except GoError Bytes
  /-- the error of `zipWriter.Create(name)`, if any -/
  ZipCreate : String → Option GoError
  /-- the error of a write to the zip entry `name`, if any -/
  ZipWrite : String → Option GoError
  /-- the error of `zipWriter.Close()`, if any -/
  ZipClose : Option GoError
  /-- the error of `writer.CreateFormFile(fieldname, ...)`, if any -/
  MultipartCreateFormFile : String → Option GoError
  /-- the error of a write to the multipart file `fieldname`, if any -/
  MultipartWrite : String → Option GoError
  /-- the error of `writer.WriteField(fieldname, ...)`, if any -/
  MultipartWriteField : String → Option GoError
  /-- Go `writer.FormDataContentType()` -/
  FormDataContentType : String
  /-- Go `rsa.GenerateKey(rand.Reader, bits)` -/
  GenerateKey : Nat → σ → Except GoError PrivateKey × σ
  /-- Go `x509.MarshalPKCS1PrivateKey(key)` -/
  MarshalPKCS1PrivateKey : PrivateKey → Bytes
  /-- Go `x509.CreateCertificateRequest(rand.Reader, template, key)`, the template
  being a subject common name signed with SHA256WithRSA -/
  CreateCertificateRequest : String → PrivateKey → σ → Except GoError Bytes × σ
  /-- Go `pem.EncodeToMemory` of a block of the given type and bytes -/
  EncodeToMemory : String → Bytes → ByteSlice
  /-- Go `metav1.Now()` -/
  Now : σ → Nat
  /-- Go `CertificateSigningRequests().Get(ctx, name, ...)` -/
  CSRGet : String → σ → Except GoError CertificateSigningRequest × σ
  /-- Go `CertificateSigningRequests().Create(ctx, csr, ...)` -/
  CSRCreate : CertificateSigningRequest → σ → Except GoError CertificateSigningRequest × σ
  /-- Go `CertificateSigningRequests().UpdateApproval(ctx, name, csr, ...)` -/
  CSRUpdateApproval : String → CertificateSigningRequest → σ →
    Except GoError CertificateSigningRequest × σ
  /-- Go `CertificateSigningRequests().Delete(ctx, name, ...)` -/
  CSRDelete : String → σ → Option GoError × σ
  /-- Go `RbacV1().ClusterRoles().Create(ctx, clusterRole, ...)` -/
  ClusterRolesCreate : ClusterRole → σ → Except GoError ClusterRole × σ
  /-- Go `RbacV1().ClusterRoles().Get(ctx, name, ...)` -/
  ClusterRolesGet : String → σ → Except GoError ClusterRole × σ
  /-- Go `RbacV1().ClusterRoles().Update(ctx, clusterRole, ...)` -/
  ClusterRolesUpdate : ClusterRole → σ → Except GoError ClusterRole × σ
  /-- Go `RbacV1().ClusterRoleBindings().Create(ctx, clusterRoleBinding, ...)` -/
  ClusterRoleBindingsCreate : ClusterRoleBinding → σ → Except GoError ClusterRoleBinding × σ

/-- A call on a stateful collaborator, with its arguments and its answer. -/
inductive Call where
  | ServicesGet (ns name : String) (err : Option GoError)
  | Do (req : HTTPRequest) (err : Option GoError)
  | CSRGet (name : String) (err : Option GoError)
  | CSRCreate (obj : CertificateSigningRequest) (err : Option GoError)
  | CSRUpdateApproval (name : String) (obj : CertificateSigningRequest) (err : Option GoError)
  | CSRDelete (name : String) (err : Option GoError)
  | ClusterRolesCreate (obj : ClusterRole) (err : Option GoError)
  | ClusterRolesGet (name : String) (err : Option GoError)
  | ClusterRolesUpdate (obj : ClusterRole) (err : Option GoError)
  | ClusterRoleBindingsCreate (obj : ClusterRoleBinding) (err : Option GoError)
  | GenerateKey (bits : Nat) (err : Option GoError)
  | CreateCertificateRequest (commonName : String) (err : Option GoError)
  deriving DecidableEq, Repr

/-- The error of an answer, `none` when the call succeeded. -/
def errOf {α : Type} : Except GoError α → Option GoError
  | .ok _ => none
  | .error e => some e

/-- State threaded through a run: the outside world and the calls made so far, oldest
first (`κ` is the type of the recorded calls). -/
structure Run (κ σ : Type) where
  world : σ
  trace : List κ
  deriving DecidableEq, Repr

/-- The start of a run. -/
def Run.start {κ σ : Type} (w : σ) : Run κ σ := { world := w, trace := [] }

/-- Append a call to the trace and move to the world it left. -/
def Run.log {κ σ : Type} (r : Run κ σ) (c : κ) (w : σ) : Run κ σ :=
  { world := w, trace := r.trace ++ [c] }

/-! ## internal/controller/keylime.go -/

/-- The loop over `service.Spec.Ports`: the port of the first entry with the given
name, 0 (the zero value of `servicePort`) when there is none. -/
def portNamed (name : String) : List ServicePort → Int
  | [] => 0
  | port :: rest => if port.Name = name then port.Port else portNamed name rest

/-- Embedding of `AuthenticateEdgeNode`. -/
def AuthenticateEdgeNode {σ : Type} (P : Platform σ) (edgenode : EdgeNode) (r : Run Call σ) :
    Option GoError × Run Call σ :=
  match P.ServicesGet "keylime" "hhkl-keylime-registrar" r.world with
  | (.error err, w) =>
    (some err, r.log (.ServicesGet "keylime" "hhkl-keylime-registrar" (some err)) w)
  | (.ok service, w) =>
    let r := r.log (.ServicesGet "keylime" "hhkl-keylime-registrar" none) w
    let serviceIP := service.ClusterIP
    let servicePort := portNamed "registrar-tls" service.Ports
    let url := "https://" ++ serviceIP ++ ":" ++ toString servicePort ++ "/v2.1/agents/"
      ++ edgenode.Spec.UUID
    match P.NewRequest "GET" url with
    | some err => (some err, r)
    | none =>
    match P.LoadX509KeyPair "/var/lib/controller/certs/csr.crt"
        "/var/lib/controller/certs/csr.key" with
    | some err => (some err, r)
    | none =>
    let req : HTTPRequest :=
      { Method := "GET", URL := url, Body := [], ContentType := "",
        ClientCertificate := some ("/var/lib/controller/certs/csr.crt",
          "/var/lib/controller/certs/csr.key"),
        InsecureSkipVerify := true }
    match P.Do req r.world with
    | (.error err, w) => (some err, r.log (.Do req (some err)) w)
    | (.ok resp, w) =>
      let r := r.log (.Do req none) w
      if resp.StatusCode ≠ 200 then (some (.New "registrar request error"), r)
      else
        match resp.Body with
        | .error err => (some err, r)
        | .ok body =>
          match P.Unmarshal body with
          | .error err => (some err, r)
          | .ok responseData =>
            if edgenode.Spec.EkCert ≠ responseData.Results.EkCert then
              (some (.New "unable to validate TPM identity"), r)
            else (none, r)

/-- State of a `zip.Writer` over a buffer: the entries created so far. -/
structure ZipWriter where
  entries : List ZipEntry
  deriving DecidableEq, Repr

/-- Go `zip.NewWriter(&buf)` -/
def ZipWriter.NewWriter : ZipWriter := { entries := [] }

/-- Go `zipWriter.Create(name)`: a new, empty entry after the existing ones. -/
def ZipWriter.Create (w : ZipWriter) (name : String) : ZipWriter :=
  { entries := w.entries ++ [{ Name := name, Data := [] }] }

/-- A write to the writer `Create` returned last: the bytes go to the end of the
last entry. -/
def ZipWriter.Write (w : ZipWriter) (data : Bytes) : ZipWriter :=
  match w.entries.reverse with
  | [] => w
  | last :: before =>
    { entries := before.reverse ++ [{ Name := last.Name, Data := last.Data ++ data }] }

/-- Embedding of `packageZIP`; the result is `(err, zipBuffer)`, the buffer being the
archive it encodes. -/
def packageZIP {σ : Type} (P : Platform σ) (pKeyPEM certPEM : ByteSlice) :
    Option GoError × Option Archive :=
  let zipWriter := ZipWriter.NewWriter
  match P.ZipCreate "cert.pem" with
  | some err => (some err, none)
  | none =>
  let zipWriter := zipWriter.Create "cert.pem"
  match P.ZipWrite "cert.pem" with
  | some err => (some err, none)
  | none =>
  let zipWriter := zipWriter.Write (bytesOf certPEM)
  match P.ZipCreate "key.pem" with
  | some err => (some err, none)
  | none =>
  let zipWriter := zipWriter.Create "key.pem"
  match P.ZipWrite "key.pem" with
  | some err => (some err, none)
  | none =>
  let zipWriter := zipWriter.Write (bytesOf pKeyPEM)
  match P.ReadFile "autorun.sh" with
  | .error err => (some err, none)
  | .ok runScript =>
  match P.ZipCreate "autorun.sh" with
  | some err => (some err, none)
  | none =>
  let zipWriter := zipWriter.Create "autorun.sh"
  match P.ZipWrite "autorun.sh" with
  | some err => (some err, none)
  | none =>
  let zipWriter := zipWriter.Write runScript
  match P.ZipClose with
  | some err => (some err, none)
  | none => (none, some zipWriter.entries)

/-- Embedding of `DeployFledge`. -/
def DeployFledge {σ : Type} (P : Platform σ) (pKeyPEM certPEM : ByteSlice)
    (edgenode : EdgeNode) (r : Run Call σ) : Outcome (Option GoError) × Run Call σ :=
  match packageZIP P pKeyPEM certPEM with
  | (some err, _) => (.returned (some err), r)
  | (none, zipBuffer) =>
  match P.MultipartCreateFormFile "file" with
  | some err => (.returned (some err), r)
  | none =>
  match P.MultipartWrite "file" with
  | some err => (.returned (some err), r)
  | none =>
  let body := [Part.archive "file" "file" (zipBuffer.getD [])]
  match P.MultipartWriteField "uuid" with
  | some err => (.panicked err.Error, r)
  | none =>
  let body := body ++ [Part.field "uuid" edgenode.Spec.UUID]
  match P.MultipartCreateFormFile "json" with
  | some err => (.returned (some err), r)
  | none =>
  match P.MultipartWrite "json" with
  | some err => (.returned (some err), r)
  | none =>
  let body := body ++ [Part.file "json" "json" (utf8 edgenode.Spec.MbRefstate)]
  match P.ServicesGet "keylime" "hhkl-keylime-tenant" r.world with
  | (.error err, w) =>
    (.returned (some err), r.log (.ServicesGet "keylime" "hhkl-keylime-tenant" (some err)) w)
  | (.ok service, w) =>
    let r := r.log (.ServicesGet "keylime" "hhkl-keylime-tenant" none) w
    let serviceIP := service.ClusterIP
    let servicePort := portNamed "tenant" service.Ports
    let url := "http://" ++ serviceIP ++ ":" ++ toString servicePort ++ "/edgenode"
    match P.NewRequest "POST" url with
    | some err => (.returned (some err), r)
    | none =>
    let req : HTTPRequest :=
      { Method := "POST", URL := url, Body := body, ContentType := P.FormDataContentType,
        ClientCertificate := none, InsecureSkipVerify := false }
    match P.Do req r.world with
    | (.error err, w) => (.returned (some err), r.log (.Do req (some err)) w)
    | (.ok resp, w) =>
      let r := r.log (.Do req none) w
      if resp.StatusCode ≠ 200 then
        (.returned (some (.New ("unexpected response from tenant: " ++ resp.Status))), r)
      else (.returned none, r)

/-! ## internal/controller/certificates.go -/

/-- Embedding of `createCertificateSigningRequest`; the first component is the
returned pointer, `none` being nil. -/
def createCertificateSigningRequest {σ : Type} (P : Platform σ) (edgeNode : EdgeNode)
    (r : Run Call σ) :
    (Option CertificateSigningRequest × ByteSlice × Option GoError) × Run Call σ :=
  let csrName := edgeNode.Spec.UUID ++ "-csr"
  -- check if the CSR already exists
  match P.CSRGet csrName r.world with
  | (.ok _, w) =>
    ((none, none, some (.New "CSR already exists")), r.log (.CSRGet csrName none) w)
  | (.error err, w) =>
    let r := r.log (.CSRGet csrName (some err)) w
    let csr := CertificateSigningRequest.zero
    -- create csr
    match P.GenerateKey 2048 r.world with
    | (.error err, w) => ((some csr, none, some err), r.log (.GenerateKey 2048 (some err)) w)
    | (.ok privateKey, w) =>
      let r := r.log (.GenerateKey 2048 none) w
      let pKeyPEM := P.EncodeToMemory "RSA PRIVATE KEY" (P.MarshalPKCS1PrivateKey privateKey)
      match P.CreateCertificateRequest edgeNode.Spec.UUID privateKey r.world with
      | (.error err, w) =>
        ((some csr, pKeyPEM, some err),
          r.log (.CreateCertificateRequest edgeNode.Spec.UUID (some err)) w)
      | (.ok csrDER, w) =>
        let r := r.log (.CreateCertificateRequest edgeNode.Spec.UUID none) w
        let csrPEM := P.EncodeToMemory "CERTIFICATE REQUEST" csrDER
        let csr : CertificateSigningRequest :=
          { Name := csrName, Request := csrPEM,
            Usages := [UsageDigitalSignature, UsageKeyEncipherment, UsageClientAuth],
            SignerName := "kubernetes.io/kube-apiserver-client",
            Conditions := none, Certificate := none }
        -- push csr to K8s API
        match P.CSRCreate csr r.world with
        | (.error err, w) =>
          ((some CertificateSigningRequest.zero, pKeyPEM, some err),
            r.log (.CSRCreate csr (some err)) w)
        | (.ok created, w) => ((some created, pKeyPEM, none), r.log (.CSRCreate csr none) w)

/-- The test `csr.Status.Conditions != nil && csr.Status.Conditions[0].Type ==
certificatesv1.CertificateApproved`; indexing a non-nil empty slice panics. -/
def alreadyApproved (csr : CertificateSigningRequest) : Outcome Bool :=
  match csr.Conditions with
  | none => .returned false
  | some [] => .panicked "index out of range [0] with length 0"
  | some (first :: _) => .returned (first.ConditionType = CertificateApproved)

/-- The loop `for certPEM == nil` of `approveCertificateSigningRequest`: each round
gets the request named as the last answer was and reads its certificate. The
loop has no bound in the source; here it gives up as `hung` after `fuel` rounds
without an exit. The result is the last answer with its certificate, or the error
of the lookup. -/
def pollCertificate {σ : Type} (P : Platform σ) :
    Nat → CertificateSigningRequest → Run Call σ →
    Outcome (Except GoError (CertificateSigningRequest × Bytes)) × Run Call σ
  | 0, _, r => (.hung, r)
  | fuel + 1, csr, r =>
    match P.CSRGet csr.Name r.world with
    | (.error err, w) => (.returned (.error err), r.log (.CSRGet csr.Name (some err)) w)
    | (.ok csr', w) =>
      let r := r.log (.CSRGet csr.Name none) w
      match csr'.Certificate with
      | none => pollCertificate P fuel csr' r
      | some certPEM => (.returned (.ok (csr', certPEM)), r)

/-- Embedding of `approveCertificateSigningRequest`; `fuel` bounds the rounds of the
polling loop. -/
def approveCertificateSigningRequest {σ : Type} (P : Platform σ) (fuel : Nat)
    (csr : Option CertificateSigningRequest) (r : Run Call σ) :
    Outcome (ByteSlice × Option GoError) × Run Call σ :=
  match csr with
  | none => (.panicked "invalid memory address or nil pointer dereference", r)
  | some csr =>
  -- check if already approved
  match alreadyApproved csr with
  | .panicked msg => (.panicked msg, r)
  | .hung => (.hung, r)
  | .returned true => (.returned (none, none), r)
  | .returned false =>
    -- approve
    let csr : CertificateSigningRequest :=
      { csr with Conditions := some (csr.Conditions.getD [] ++
          [{ ConditionType := CertificateApproved,
             Reason := "EdgeNodeControllerApproval",
             Message := "Node passed identity checks and was automatically issues this certificate",
             LastUpdateTime := P.Now r.world,
             Status := "True" }]) }
    -- push approval to K8s API
    match P.CSRUpdateApproval csr.Name csr r.world with
    | (.error err, w) =>
      (.returned (none, some err), r.log (.CSRUpdateApproval csr.Name csr (some err)) w)
    | (.ok updated, w) =>
      let r := r.log (.CSRUpdateApproval csr.Name csr none) w
      -- wait for csr to be available
      match pollCertificate P fuel updated r with
      | (.panicked msg, r) => (.panicked msg, r)
      | (.hung, r) => (.hung, r)
      | (.returned (.error err), r) => (.returned (none, some err), r)
      | (.returned (.ok (csr, certPEM)), r) =>
        -- certificate has been obtained, delete csr to keep everything clean
        match P.CSRDelete csr.Name r.world with
        | (some err, w) => (.returned (none, some err), r.log (.CSRDelete csr.Name (some err)) w)
        | (none, w) => (.returned (some certPEM, none), r.log (.CSRDelete csr.Name none) w)

/-- Embedding of `createUserAccount`. -/
def createUserAccount {σ : Type} (P : Platform σ) (edgenode : EdgeNode)
    (_certPEM _pKeyPEM : ByteSlice) (r : Run Call σ) : Option GoError × Run Call σ :=
  let clusterRole : ClusterRole :=
    { Name := edgenode.Spec.UUID ++ "-cluster-role", Metadata := [],
      Rules := some [{ Verbs := ["get", "list", "watch"], APIGroups := [""],
                       Resources := ["pods"] }] }
  match P.ClusterRolesCreate clusterRole r.world with
  | (.error err, w) => (some err, r.log (.ClusterRolesCreate clusterRole (some err)) w)
  | (.ok created, w) =>
    let r := r.log (.ClusterRolesCreate clusterRole none) w
    let clusterRoleBinding : ClusterRoleBinding :=
      { Name := edgenode.Spec.UUID ++ "-cluster-role-binding",
        Subjects := [{ Kind := "User", Name := edgenode.Spec.UUID, Namespace := "default" }],
        RoleRef := { Kind := "ClusterRole", Name := created.Name } }
    match P.ClusterRoleBindingsCreate clusterRoleBinding r.world with
    | (.error err, w) =>
      (some err, r.log (.ClusterRoleBindingsCreate clusterRoleBinding (some err)) w)
    | (.ok _, w) => (none, r.log (.ClusterRoleBindingsCreate clusterRoleBinding none) w)

/-- Embedding of `ObtainUserAccount`; the result is `(pKeyPEM, certPEM, err)`. -/
def ObtainUserAccount {σ : Type} (P : Platform σ) (fuel : Nat) (edgeNode : EdgeNode)
    (r : Run Call σ) : Outcome (ByteSlice × ByteSlice × Option GoError) × Run Call σ :=
  -- create csr, also returns generated private key
  match createCertificateSigningRequest P edgeNode r with
  | ((_, _, some err), r) => (.returned (none, none, some err), r)
  | ((csr, pKeyPEM, none), r) =>
    -- approve csr, also returns generated certificate
    match approveCertificateSigningRequest P fuel csr r with
    | (.panicked msg, r) => (.panicked msg, r)
    | (.hung, r) => (.hung, r)
    | (.returned (_, some err), r) => (.returned (none, none, some err), r)
    | (.returned (certPEM, none), r) =>
      -- create clusterrole and clusterrolebinding for edge node
      let r := (createUserAccount P edgeNode certPEM pKeyPEM r).2
      (.returned (pKeyPEM, certPEM, none), r)

/-! ## internal/controller/edgenode_controller.go -/

/-- Go `ctrl.Result`; `RequeueAfter` is a `time.Duration`, in nanoseconds. -/
structure Result where
  Requeue : Bool
  RequeueAfter : Nat
  deriving DecidableEq, Repr

/-- Go `time.Second` -/
def Second : Nat := 1000000000

/-- What `Reconcile` calls: the controller-runtime client and its helpers, the event
recorder, the three steps of the bootstrap (functions of this package, taken here as
collaborators that may each succeed or fail), and the cluster roles of the
clientset; `τ` is the state of all that. -/
structure Collaborators (τ : Type) where
  /-- `r.Get(ctx, req.NamespacedName, edgeNode)` -/
  Get : String → τ → Except GoError EdgeNode × τ
  /-- the error of `rest.InClusterConfig()`, if any -/
  InClusterConfig : Option GoError
  /-- the error of `kubernetes.NewForConfig(config)`, if any -/
  NewForConfig : Option GoError
  /-- the error of `reference.GetReference(r.Scheme, edgeNode)`, if any -/
  GetReference : EdgeNode → Option GoError
  AuthenticateEdgeNode : EdgeNode → τ → Outcome (Option GoError) × τ
  ObtainUserAccount : EdgeNode → τ → Outcome (ByteSlice × ByteSlice × Option GoError) × τ
  DeployFledge : ByteSlice → ByteSlice → EdgeNode → τ → Outcome (Option GoError) × τ
  /-- `clientset.RbacV1().ClusterRoles().Get(ctx, name, ...)` -/
  ClusterRolesGet : String → τ → Except GoError ClusterRole × τ
  /-- `clientset.RbacV1().ClusterRoles().Update(ctx, clusterRole, ...)` -/
  ClusterRolesUpdate : ClusterRole → τ → Except GoError ClusterRole × τ

/-- What a pass of `Reconcile` invokes, with arguments and answers. -/
inductive Invocation where
  | Get (name : String) (err : Option GoError)
  | Eventf (eventtype reason message : String)
  | AuthenticateEdgeNode (edgeNode : EdgeNode) (result : Outcome (Option GoError))
  | ObtainUserAccount (edgeNode : EdgeNode)
      (result : Outcome (ByteSlice × ByteSlice × Option GoError))
  | DeployFledge (pKeyPEM certPEM : ByteSlice) (edgeNode : EdgeNode)
      (result : Outcome (Option GoError))
  | ClusterRolesGet (name : String) (err : Option GoError)
  | ClusterRolesUpdate (obj : ClusterRole) (err : Option GoError)
  deriving DecidableEq, Repr

/-- Go `client.IgnoreNotFound(err)` -/
def IgnoreNotFound : Option GoError → Option GoError
  | some (.NotFound _) => none
  | err => err

/-- The `switch edgeNode.Spec.Status` of `Reconcile` with the return after it. -/
def Reconcile.dispatch {τ : Type} (C : Collaborators τ) (edgeNode : EdgeNode)
    (r : Run Invocation τ) : Outcome (Result × Option GoError) × Run Invocation τ :=
  -- the value of `err` on entry: the nil error of GetReference
  let err : Option GoError := none
  if edgeNode.Spec.Status = Unregistered then
    let r := r.log (.Eventf "Normal" "EdgeNodeUnregistered"
      "Edgenode resource was added but has not been registered with the registrar yet") r.world
    match err with
    | some err => (.returned ({ Requeue := false, RequeueAfter := 0 }, some err), r)
    | none => (.returned ({ Requeue := false, RequeueAfter := 0 }, none), r)
  else if edgeNode.Spec.Status = Registered then
    let r := r.log (.Eventf "Normal" "EdgeNodeRegistered"
      "Edgenode was registered by the registrar") r.world
    -- registered, needs credentials
    match C.AuthenticateEdgeNode edgeNode r.world with
    | (.panicked msg, w) => (.panicked msg, r.log (.AuthenticateEdgeNode edgeNode (.panicked msg)) w)
    | (.hung, w) => (.hung, r.log (.AuthenticateEdgeNode edgeNode .hung) w)
    | (.returned (some err), w) =>
      -- failed to authenticate node, try again later (node might not have connected yet)
      (.returned ({ Requeue := false, RequeueAfter := 10 * Second }, some err),
        r.log (.AuthenticateEdgeNode edgeNode (.returned (some err))) w)
    | (.returned none, w) =>
      let r := r.log (.AuthenticateEdgeNode edgeNode (.returned none)) w
      match C.ObtainUserAccount edgeNode r.world with
      | (.panicked msg, w) => (.panicked msg, r.log (.ObtainUserAccount edgeNode (.panicked msg)) w)
      | (.hung, w) => (.hung, r.log (.ObtainUserAccount edgeNode .hung) w)
      | (.returned (pKeyPEM, certPEM, some err), w) =>
        (.returned ({ Requeue := false, RequeueAfter := 0 }, some err),
          r.log (.ObtainUserAccount edgeNode (.returned (pKeyPEM, certPEM, some err))) w)
      | (.returned (pKeyPEM, certPEM, none), w) =>
        let r := r.log (.ObtainUserAccount edgeNode (.returned (pKeyPEM, certPEM, none))) w
        -- pass private key, signed certificate and ca information to fledge
        match C.DeployFledge pKeyPEM certPEM edgeNode r.world with
        | (.panicked msg, w) =>
          (.panicked msg, r.log (.DeployFledge pKeyPEM certPEM edgeNode (.panicked msg)) w)
        | (.hung, w) => (.hung, r.log (.DeployFledge pKeyPEM certPEM edgeNode .hung) w)
        | (.returned (some err), w) =>
          (.returned ({ Requeue := false, RequeueAfter := 0 }, some err),
            r.log (.DeployFledge pKeyPEM certPEM edgeNode (.returned (some err))) w)
        | (.returned none, w) =>
          (.returned ({ Requeue := false, RequeueAfter := 0 }, none),
            r.log (.DeployFledge pKeyPEM certPEM edgeNode (.returned none)) w)
  else if edgeNode.Spec.Status = Unattested then
    let r := r.log (.Eventf "Warning" "EdgeNodeUnattested" "Edgenode failed attesation") r.world
    -- not attested, take action
    let name := edgeNode.Spec.UUID ++ "-cluster-role"
    match C.ClusterRolesGet name r.world with
    | (.error err, w) => (.panicked err.Error, r.log (.ClusterRolesGet name (some err)) w)
    | (.ok clusterRole, w) =>
      let r := r.log (.ClusterRolesGet name none) w
      -- remove all permissions
      let clusterRole : ClusterRole := { clusterRole with Rules := some [] }
      match C.ClusterRolesUpdate clusterRole r.world with
      | (.error err, w) =>
        (.returned ({ Requeue := false, RequeueAfter := 0 }, some err),
          r.log (.ClusterRolesUpdate clusterRole (some err)) w)
      | (.ok _, w) =>
        (.returned ({ Requeue := false, RequeueAfter := 0 }, none),
          r.log (.ClusterRolesUpdate clusterRole none) w)
  else if edgeNode.Spec.Status = Attested then
    let r := r.log (.Eventf "Normal" "EdgeNodeAttested" "Edgenode is attested") r.world
    -- attested, do nothing, do not requeue
    (.returned ({ Requeue := false, RequeueAfter := 0 }, none), r)
  else
    (.returned ({ Requeue := false, RequeueAfter := 0 },
      some (.New ("invalid node state for node " ++ edgeNode.Spec.UUID))), r)

/-- Embedding of `EdgeNodeReconciler.Reconcile`, for the request of the object named
`req`. -/
def Reconcile {τ : Type} (C : Collaborators τ) (req : String) (r : Run Invocation τ) :
    Outcome (Result × Option GoError) × Run Invocation τ :=
  match C.Get req r.world with
  | (.error err, w) =>
    (.returned ({ Requeue := false, RequeueAfter := 0 }, IgnoreNotFound (some err)),
      r.log (.Get req (some err)) w)
  | (.ok edgeNode, w) =>
    let r := r.log (.Get req none) w
    match C.InClusterConfig with
    | some err => (.panicked err.Error, r)
    | none =>
    match C.NewForConfig with
    | some err => (.panicked err.Error, r)
    | none =>
    match C.GetReference edgeNode with
    | some err => (.returned ({ Requeue := false, RequeueAfter := 0 }, some err), r)
    | none => Reconcile.dispatch C edgeNode r

/-- The collaborators of `Reconcile` in the controller itself: the three steps are
the functions of this package, run on the platform `P`; `get` and the three
errors stand for the controller-runtime client and its helpers. -/
def controller {σ : Type} (P : Platform σ) (fuel : Nat)
    (get : String → σ → Except GoError EdgeNode × σ)
    (inClusterConfig newForConfig : Option GoError) (getReference : EdgeNode → Option GoError) :
    Collaborators (Run Call σ) :=
  { Get := fun name r => ((get name r.world).1, { r with world := (get name r.world).2 })
    InClusterConfig := inClusterConfig
    NewForConfig := newForConfig
    GetReference := getReference
    AuthenticateEdgeNode := fun edgeNode r =>
      (.returned (AuthenticateEdgeNode P edgeNode r).1, (AuthenticateEdgeNode P edgeNode r).2)
    ObtainUserAccount := fun edgeNode r => TrustEdge.ObtainUserAccount P fuel edgeNode r
    DeployFledge := fun pKeyPEM certPEM edgeNode r =>
      TrustEdge.DeployFledge P pKeyPEM certPEM edgeNode r
    ClusterRolesGet := fun name r =>
      ((P.ClusterRolesGet name r.world).1,
        r.log (.ClusterRolesGet name (errOf (P.ClusterRolesGet name r.world).1))
          (P.ClusterRolesGet name r.world).2)
    ClusterRolesUpdate := fun obj r =>
      ((P.ClusterRolesUpdate obj r.world).1,
        r.log (.ClusterRolesUpdate obj (errOf (P.ClusterRolesUpdate obj r.world).1))
          (P.ClusterRolesUpdate obj r.world).2) }

/-! ## A reference cluster

A concrete platform on which runs can be exhibited: the API server as a store of
named objects, with a script of what the rest of the cluster does while each
successive call is served. -/

/-- What the rest of the cluster does while a call is served. -/
inductive Event where
  /-- nothing -/
  | quiet
  /-- the call is refused with this error and has no effect -/
  | fault (err : GoError)
  /-- an approver approves the pending signing request of this name -/
  | approve (name : String)
  /-- the signer issues this certificate for the approved signing request of this name -/
  | issue (name : String) (certificate : Bytes)
  deriving DecidableEq, Repr

/-- State of the reference cluster. -/
structure Cluster where
  /-- the EdgeNode objects declared -/
  edgeNodes : List EdgeNode
  /-- services, by namespace and name -/
  services : List ((String × String) × Service)
  /-- answers of the HTTP services, by URL: status code, status line, body -/
  responders : List (String × Int × String × Bytes)
  csrs : List CertificateSigningRequest
  clusterRoles : List ClusterRole
  clusterRoleBindings : List ClusterRoleBinding
  /-- key material the random source will yield -/
  entropy : List Bytes
  /-- what happens while the calls to come are served, in order; nothing once it is
  used up -/
  script : List Event
  clock : Nat
  deriving DecidableEq, Repr

/-- The machine the controller runs on: its files, and the JSON documents with what
they decode to. -/
structure Host where
  files : List (String × Bytes)
  documents : List (Bytes × ResponseData)
  deriving DecidableEq, Repr

/-- The condition an approver attaches. -/
def approvedCondition : CertificateSigningRequestCondition :=
  { ConditionType := CertificateApproved, Status := "True", Reason := "AutoApproved",
    Message := "", LastUpdateTime := 0 }

/-- Whether a signing request carries an approval. -/
def isApproved (csr : CertificateSigningRequest) : Bool :=
  (csr.Conditions.getD []).any (fun c => c.ConditionType = CertificateApproved)

/-- Effect of an event on the signing requests the authority holds. -/
def Event.act : Event → List CertificateSigningRequest → List CertificateSigningRequest
  | .approve name, csrs =>
    csrs.map (fun csr =>
      if csr.Name = name ∧ isApproved csr = false then
        { csr with Conditions := some (csr.Conditions.getD [] ++ [approvedCondition]) }
      else csr)
  | .issue name certificate, csrs =>
    csrs.map (fun csr =>
      if csr.Name = name ∧ isApproved csr = true then
        { csr with Certificate := some certificate }
      else csr)
  | _, csrs => csrs

/-- The event of the call being served, and the cluster with the rest of the script. -/
def Cluster.next (c : Cluster) : Event × Cluster :=
  match c.script with
  | [] => (.quiet, c)
  | ev :: rest => (ev, { c with script := rest })

/-- The signing request of a name, if the authority holds one. -/
def Cluster.csr (c : Cluster) (name : String) : Option CertificateSigningRequest :=
  c.csrs.find? (fun csr => csr.Name = name)

/-- The cluster role of a name, if the backend holds one. -/
def Cluster.clusterRole (c : Cluster) (name : String) : Option ClusterRole :=
  c.clusterRoles.find? (fun role => role.Name = name)

/-- Serve a call on the signing requests: unless the event refuses it, apply its
effect `effect` (which may itself fail), then the event; `answer` reads the response
off the resulting store. -/
def Cluster.serve {α : Type} (c : Cluster)
    (effect : List CertificateSigningRequest → Except GoError (List CertificateSigningRequest))
    (answer : List CertificateSigningRequest → Except GoError α) : Except GoError α × Cluster :=
  match c.next with
  | (.fault err, c) => (.error err, c)
  | (ev, c) =>
    match effect c.csrs with
    | .error err => (.error err, c)
    | .ok csrs =>
      let c := { c with csrs := ev.act csrs }
      (answer c.csrs, c)

/-- Read a signing request off a store. -/
def lookupCSR (name : String) (csrs : List CertificateSigningRequest) :
    Except GoError CertificateSigningRequest :=
  match csrs.find? (fun csr => csr.Name = name) with
  | some csr => .ok csr
  | none => .error (.NotFound name)

/-- Serve a call on another kind of object: the event may only refuse it. -/
def Cluster.serveOther {α : Type} (c : Cluster) (f : Cluster → Except GoError α × Cluster) :
    Except GoError α × Cluster :=
  match c.next with
  | (.fault err, c) => (.error err, c)
  | (ev, c) => f { c with csrs := ev.act c.csrs }

/-- The reference cluster as a platform. -/
def Cluster.platform (h : Host) : Platform Cluster :=
  { ServicesGet := fun ns name c =>
      c.serveOther (fun c =>
        match c.services.find? (fun s => s.1 = (ns, name)) with
        | some s => (.ok s.2, c)
        | none => (.error (.NotFound name), c))
    NewRequest := fun _ _ => none
    LoadX509KeyPair := fun certFile keyFile =>
      if (h.files.find? (fun f => f.1 = certFile)).isSome ∧
          (h.files.find? (fun f => f.1 = keyFile)).isSome then none
      else some (.Other "open: no such file or directory")
    Do := fun req c =>
      c.serveOther (fun c =>
        match c.responders.find? (fun s => s.1 = req.URL) with
        | some (_, code, status, body) =>
          (.ok { StatusCode := code, Status := status, Body := .ok body }, c)
        | none => (.error (.Other "connection refused"), c))
    Unmarshal := fun body =>
      match h.documents.find? (fun d => d.1 = body) with
      | some d => .ok d.2
      | none => .error (.Other "invalid character")
    ReadFile := fun name =>
      match h.files.find? (fun f => f.1 = name) with
      | some f => .ok f.2
      | none => .error (.Other "open: no such file or directory")
    ZipCreate := fun _ => none
    ZipWrite := fun _ => none
    ZipClose := none
    MultipartCreateFormFile := fun _ => none
    MultipartWrite := fun _ => none
    MultipartWriteField := fun _ => none
    FormDataContentType := "multipart/form-data"
    GenerateKey := fun _ c =>
      match c.entropy with
      | [] => (.error (.Other "EOF"), c)
      | material :: rest => (.ok { material := material }, { c with entropy := rest })
    MarshalPKCS1PrivateKey := fun key => key.material
    CreateCertificateRequest := fun commonName key c =>
      (.ok (utf8 commonName ++ key.material), c)
    EncodeToMemory := fun _ bytes => some bytes
    Now := fun c => c.clock
    CSRGet := fun name c => c.serve (fun csrs => .ok csrs) (lookupCSR name)
    CSRCreate := fun obj c =>
      c.serve
        (fun csrs =>
          if (csrs.find? (fun csr => csr.Name = obj.Name)).isSome then
            .error (.AlreadyExists obj.Name)
          else .ok (csrs ++ [obj]))
        (lookupCSR obj.Name)
    CSRUpdateApproval := fun name obj c =>
      c.serve
        (fun csrs =>
          if (csrs.find? (fun csr => csr.Name = name)).isSome then
            .ok (csrs.map (fun csr =>
              if csr.Name = name then { csr with Conditions := obj.Conditions } else csr))
          else .error (.NotFound name))
        (lookupCSR name)
    CSRDelete := fun name c =>
      match c.serve
        (fun csrs =>
          if (csrs.find? (fun csr => csr.Name = name)).isSome then
            .ok (csrs.filter (fun csr => csr.Name ≠ name))
          else .error (.NotFound name))
        (fun _ => .ok ()) with
      | (.ok _, c) => (none, c)
      | (.error err, c) => (some err, c)
    ClusterRolesCreate := fun obj c =>
      c.serveOther (fun c =>
        if (c.clusterRole obj.Name).isSome then (.error (.AlreadyExists obj.Name), c)
        else (.ok obj, { c with clusterRoles := c.clusterRoles ++ [obj] }))
    ClusterRolesGet := fun name c =>
      c.serveOther (fun c =>
        match c.clusterRole name with
        | some role => (.ok role, c)
        | none => (.error (.NotFound name), c))
    ClusterRolesUpdate := fun obj c =>
      c.serveOther (fun c =>
        if (c.clusterRole obj.Name).isSome then
          (.ok obj, { c with clusterRoles :=
            c.clusterRoles.map (fun role => if role.Name = obj.Name then obj else role) })
        else (.error (.NotFound obj.Name), c))
    ClusterRoleBindingsCreate := fun obj c =>
      c.serveOther (fun c =>
        if (c.clusterRoleBindings.find? (fun b => b.Name = obj.Name)).isSome then
          (.error (.AlreadyExists obj.Name), c)
        else (.ok obj, { c with clusterRoleBindings := c.clusterRoleBindings ++ [obj] })) }

/-- Go `r.Get(ctx, req.NamespacedName, edgeNode)` on the reference cluster. -/
def Cluster.getEdgeNode (name : String) (c : Cluster) : Except GoError EdgeNode × Cluster :=
  match c.edgeNodes.find? (fun n => n.Name = name) with
  | some n => (.ok n, c)
  | none => (.error (.NotFound name), c)

/-- The controller on the reference cluster, running in it. -/
def Cluster.controller (h : Host) (fuel : Nat) : Collaborators (Run Call Cluster) :=
  TrustEdge.controller (Cluster.platform h) fuel Cluster.getEdgeNode none none (fun _ => none)

/-! ## Vocabulary of the statements -/

/-- An invocation of Verify. -/
def Invocation.isVerify : Invocation → Bool
  | .AuthenticateEdgeNode _ _ => true
  | _ => false

/-- An invocation of Issue. -/
def Invocation.isIssue : Invocation → Bool
  | .ObtainUserAccount _ _ => true
  | _ => false

/-- An invocation of Deliver. -/
def Invocation.isDeliver : Invocation → Bool
  | .DeployFledge _ _ _ _ => true
  | _ => false

/-- An invocation of Revoke: a call on the cluster roles. -/
def Invocation.isRevoke : Invocation → Bool
  | .ClusterRolesGet _ _ => true
  | .ClusterRolesUpdate _ _ => true
  | _ => false

/-- An invocation of one of the three steps of the bootstrap. -/
def Invocation.isStep (i : Invocation) : Bool := i.isVerify || i.isIssue || i.isDeliver

/-- The pass for `req` started in world `w` reaches the switch on the status of
`edgeNode`, in world `w1`: the object was fetched and the client set up. -/
def Collaborators.reachesSwitch {τ : Type} (C : Collaborators τ) (req : String) (w : τ)
    (edgeNode : EdgeNode) (w1 : τ) : Prop :=
  C.Get req w = (.ok edgeNode, w1) ∧ C.InClusterConfig = none ∧ C.NewForConfig = none ∧
    C.GetReference edgeNode = none

/-- The URL `AuthenticateEdgeNode` asks the registrar at. -/
def registrarURL (service : Service) (uuid : String) : String :=
  "https://" ++ service.ClusterIP ++ ":" ++ toString (portNamed "registrar-tls" service.Ports)
    ++ "/v2.1/agents/" ++ uuid

/-- The request `AuthenticateEdgeNode` sends to the registrar. -/
def registrarRequest (service : Service) (uuid : String) : HTTPRequest :=
  { Method := "GET", URL := registrarURL service uuid, Body := [], ContentType := "",
    ClientCertificate := some ("/var/lib/controller/certs/csr.crt",
      "/var/lib/controller/certs/csr.key"),
    InsecureSkipVerify := true }

/-- Unpacking: the contents of the first entry of a name. -/
def Archive.read (a : Archive) (name : String) : Option Bytes :=
  (a.find? (fun e => e.Name = name)).map (fun e => e.Data)

/-! ## Example objects -/

/-- The registrar record of an agent with endorsement certificate `EK-1`. -/
def registrarRecord : ResponseData :=
  { Code := 200, Status := "Success",
    Results := { AikTPM := "", EkTPM := "", EkCert := "EK-1", MtlsCert := "", IP := "",
                 Port := 0, RegCount := 1 } }

/-- A machine with the client certificate of the controller, the bootstrap script and
one JSON document: the registrar record of an agent with endorsement certificate
`EK-1`. -/
def exampleHost : Host :=
  { files := [("/var/lib/controller/certs/csr.crt", [1]),
              ("/var/lib/controller/certs/csr.key", [2]),
              ("autorun.sh", [35, 33])],
    documents := [([123, 125], registrarRecord)] }

/-- A machine like `exampleHost` without the bootstrap script. -/
def hostWithoutScript : Host :=
  { exampleHost with files := exampleHost.files.filter (fun f => f.1 ≠ "autorun.sh") }

/-- The node `node-1` with endorsement certificate `EK-1`, in the given status. -/
def exampleNode (status : Status) : EdgeNode :=
  { Name := "node-1",
    Spec := { UUID := "node-1", Status := status, EkCert := "EK-1", MbRefstate := "refstate" } }

/-- The node `node-1` declared with another endorsement certificate, `EK-2`. -/
def impostorNode : EdgeNode :=
  { Name := "node-1",
    Spec := { UUID := "node-1", Status := Registered, EkCert := "EK-2",
              MbRefstate := "refstate" } }

/-- A cluster that declares `node-1` in the given status and runs the registrar and the
tenant; the registrar knows the agent `node-1`. It holds no signing request and no
cluster role, and nothing happens in it besides the calls of the controller. -/
def exampleCluster (status : Status) : Cluster :=
  { edgeNodes := [exampleNode status],
    services :=
      [(("keylime", "hhkl-keylime-registrar"),
          { ClusterIP := "10.0.0.1", Ports := [{ Name := "registrar-tls", Port := 8891 }] }),
       (("keylime", "hhkl-keylime-tenant"),
          { ClusterIP := "10.0.0.2", Ports := [{ Name := "tenant", Port := 8080 }] })],
    responders :=
      [("https://10.0.0.1:8891/v2.1/agents/node-1", 200, "200 OK", [123, 125]),
       ("http://10.0.0.2:8080/edgenode", 200, "200 OK", [])],
    csrs := [], clusterRoles := [], clusterRoleBindings := [],
    entropy := [[7]], script := [], clock := 5 }

/-- The example cluster declaring `node-1` with the endorsement certificate `EK-2`. -/
def clusterOfImpostor : Cluster :=
  { exampleCluster Registered with edgeNodes := [impostorNode] }

/-- A signing request named `node-1-csr` that nobody has approved. -/
def pendingRequest : CertificateSigningRequest :=
  { Name := "node-1-csr", Request := some [42], Usages := [],
    SignerName := "kubernetes.io/kube-apiserver-client", Conditions := none,
    Certificate := none }

/-- The example cluster, already holding a signing request named `node-1-csr`. -/
def clusterWithRequest : Cluster :=
  { exampleCluster Registered with csrs := [pendingRequest] }

/-- The example cluster whose authority approves the request of `node-1` while it is
created: the second call of `ObtainUserAccount` (the lookup of the request, then its
creation) is served with the approval. -/
def authorityApprovingOnCreate : Cluster :=
  { exampleCluster Registered with script := [.quiet, .approve "node-1-csr"] }

/-- The example cluster holding the pending request of `node-1`, whose signer issues
the certificate `[9, 9]` once the request is approved and which then refuses the
deletion of the request (script of the calls of `approveCertificateSigningRequest`:
approval, one poll, deletion). -/
def authorityRefusingDelete : Cluster :=
  { exampleCluster Registered with
      csrs := [pendingRequest],
      script := [.quiet, .issue "node-1-csr" [9, 9], .fault (.Other "forbidden")] }

/-- The example cluster whose signer issues the certificate `[9, 9]` at the second
poll of a pass (two calls of Verify, then lookup, creation, approval, two polls). -/
def clusterIssuing : Cluster :=
  { exampleCluster Registered with
      script := [.quiet, .quiet, .quiet, .quiet, .quiet, .quiet, .issue "node-1-csr" [9, 9]] }

/-- The cluster role of `node-1` as granted. -/
def grantedRole : ClusterRole :=
  { Name := "node-1-cluster-role", Metadata := [("uid", "r-1")],
    Rules := some [{ Verbs := ["get", "list", "watch"], APIGroups := [""],
                     Resources := ["pods"] }] }

/-- The example cluster with `node-1` unattested and its cluster role granted. -/
def clusterUnattested : Cluster :=
  { exampleCluster Unattested with clusterRoles := [grantedRole] }

/-- The cluster of `clusterIssuing` in which a cluster role named
`node-1-cluster-role` exists before the pass. -/
def clusterWithRole : Cluster :=
  { clusterIssuing with clusterRoles := [grantedRole] }

/-- A cluster role binding that bears the name of the binding of `node-1`. -/
def existingBinding : ClusterRoleBinding :=
  { Name := "node-1-cluster-role-binding",
    Subjects := [{ Kind := "User", Name := "someone-else", Namespace := "default" }],
    RoleRef := { Kind := "ClusterRole", Name := "another-role" } }

/-- The cluster of `clusterIssuing` in which a cluster role binding named
`node-1-cluster-role-binding` exists before the pass. -/
def clusterWithBinding : Cluster :=
  { clusterIssuing with clusterRoleBindings := [existingBinding] }

/-! ## Theorems -/

/-- The invocations of the switch: ones that are no step, then Verify alone if it did not
succeed, else Verify and Issue if Issue did not succeed, else Verify, Issue and Deliver. -/
theorem dispatch_trace_shape {τ : Type} (C : Collaborators τ) (edgeNode : EdgeNode)
    (r : Run Invocation τ) :
    ∃ pre : List Invocation, (∀ x ∈ pre, x.isStep = false) ∧
    ((Reconcile.dispatch C edgeNode r).2.trace = r.trace ++ pre ∨
     (∃ res, res ≠ .returned none ∧
       (Reconcile.dispatch C edgeNode r).2.trace =
         r.trace ++ (pre ++ [.AuthenticateEdgeNode edgeNode res])) ∨
     (∃ res, (∀ k c, res ≠ .returned (k, c, none)) ∧
       (Reconcile.dispatch C edgeNode r).2.trace =
         r.trace ++ (pre ++ [.AuthenticateEdgeNode edgeNode (.returned none),
           .ObtainUserAccount edgeNode res])) ∨
     (∃ k c res,
       (Reconcile.dispatch C edgeNode r).2.trace =
         r.trace ++ (pre ++ [.AuthenticateEdgeNode edgeNode (.returned none),
           .ObtainUserAccount edgeNode (.returned (k, c, none)),
           .DeployFledge k c edgeNode res]))) := by
  unfold Reconcile.dispatch
  simp only [Run.log]
  split_ifs
  · exact ⟨[.Eventf "Normal" "EdgeNodeUnregistered"
      "Edgenode resource was added but has not been registered with the registrar yet"],
      by simp [Invocation.isStep, Invocation.isVerify, Invocation.isIssue, Invocation.isDeliver], Or.inl rfl⟩
  · refine ⟨[.Eventf "Normal" "EdgeNodeRegistered" "Edgenode was registered by the registrar"], by simp [Invocation.isStep, Invocation.isVerify, Invocation.isIssue, Invocation.isDeliver], ?_⟩
    split
    · rename_i msg _ _
      exact Or.inr (Or.inl ⟨.panicked msg, by simp, by simp⟩)
    · exact Or.inr (Or.inl ⟨.hung, by simp, by simp⟩)
    · rename_i err _ _
      exact Or.inr (Or.inl ⟨.returned (some err), by simp, by simp⟩)
    · split
      · rename_i msg _ _
        exact Or.inr (Or.inr (Or.inl ⟨.panicked msg, by simp, by simp⟩))
      · exact Or.inr (Or.inr (Or.inl ⟨.hung, by simp, by simp⟩))
      · rename_i k c err _ _
        exact Or.inr (Or.inr (Or.inl ⟨.returned (k, c, some err), by simp, by simp⟩))
      · rename_i k c _ _
        split
        · rename_i msg _ _
          exact Or.inr (Or.inr (Or.inr ⟨k, c, .panicked msg, by simp⟩))
        · exact Or.inr (Or.inr (Or.inr ⟨k, c, .hung, by simp⟩))
        · rename_i err _ _
          exact Or.inr (Or.inr (Or.inr ⟨k, c, .returned (some err), by simp⟩))
        · exact Or.inr (Or.inr (Or.inr ⟨k, c, .returned none, by simp⟩))
  · split
    · rename_i err _ _
      exact ⟨[.Eventf "Warning" "EdgeNodeUnattested" "Edgenode failed attesation",
        .ClusterRolesGet (edgeNode.Spec.UUID ++ "-cluster-role") (some err)],
        by simp [Invocation.isStep, Invocation.isVerify, Invocation.isIssue, Invocation.isDeliver], Or.inl (by simp)⟩
    · rename_i role _ _
      split
      · rename_i err _ _
        exact ⟨[.Eventf "Warning" "EdgeNodeUnattested" "Edgenode failed attesation",
          .ClusterRolesGet (edgeNode.Spec.UUID ++ "-cluster-role") none,
          .ClusterRolesUpdate { role with Rules := some [] } (some err)],
          by simp [Invocation.isStep, Invocation.isVerify, Invocation.isIssue, Invocation.isDeliver], Or.inl (by simp)⟩
      · exact ⟨[.Eventf "Warning" "EdgeNodeUnattested" "Edgenode failed attesation",
          .ClusterRolesGet (edgeNode.Spec.UUID ++ "-cluster-role") none,
          .ClusterRolesUpdate { role with Rules := some [] } none],
          by simp [Invocation.isStep, Invocation.isVerify, Invocation.isIssue, Invocation.isDeliver], Or.inl (by simp)⟩
  · exact ⟨[.Eventf "Normal" "EdgeNodeAttested" "Edgenode is attested"], by simp [Invocation.isStep, Invocation.isVerify, Invocation.isIssue, Invocation.isDeliver], Or.inl rfl⟩
  · exact ⟨[], by simp, Or.inl (by simp)⟩


/-- The invocations of a pass, in the shape of `dispatch_trace_shape`. -/
theorem reconcile_trace_shape {τ : Type} (C : Collaborators τ) (req : String) (w : τ) :
    ∃ pre : List Invocation, (∀ x ∈ pre, x.isStep = false) ∧
    ((Reconcile C req (Run.start w)).2.trace = pre ∨
     (∃ n res, res ≠ .returned none ∧
       (Reconcile C req (Run.start w)).2.trace = pre ++ [.AuthenticateEdgeNode n res]) ∨
     (∃ n res, (∀ k c, res ≠ .returned (k, c, none)) ∧
       (Reconcile C req (Run.start w)).2.trace =
         pre ++ [.AuthenticateEdgeNode n (.returned none), .ObtainUserAccount n res]) ∨
     (∃ n k c res,
       (Reconcile C req (Run.start w)).2.trace =
         pre ++ [.AuthenticateEdgeNode n (.returned none),
           .ObtainUserAccount n (.returned (k, c, none)), .DeployFledge k c n res])) := by
  unfold Reconcile
  split
  · rename_i err _ _
    exact ⟨[.Get req (some err)], by simp [Invocation.isStep, Invocation.isVerify,
      Invocation.isIssue, Invocation.isDeliver], Or.inl (by simp [Run.log, Run.start])⟩
  · rename_i edgeNode w1 _
    have hnostep : ∀ x ∈ [Invocation.Get req none], x.isStep = false := by
      simp [Invocation.isStep, Invocation.isVerify, Invocation.isIssue, Invocation.isDeliver]
    split
    · exact ⟨[.Get req none], hnostep, Or.inl (by simp [Run.log, Run.start])⟩
    · split
      · exact ⟨[.Get req none], hnostep, Or.inl (by simp [Run.log, Run.start])⟩
      · split
        · exact ⟨[.Get req none], hnostep, Or.inl (by simp [Run.log, Run.start])⟩
        · obtain ⟨pre, hpre, hshape⟩ :=
            dispatch_trace_shape C edgeNode ((Run.start w).log (.Get req none) w1)
          refine ⟨[.Get req none] ++ pre, ?_, ?_⟩
          · intro x hx
            rcases List.mem_append.mp hx with h | h
            · exact hnostep x h
            · exact hpre x h
          · simp only [Run.log, Run.start, List.nil_append] at hshape ⊢
            rcases hshape with h | ⟨res, hres, h⟩ | ⟨res, hres, h⟩ | ⟨k, c, res, h⟩
            · exact Or.inl (by simpa using h)
            · exact Or.inr (Or.inl ⟨edgeNode, res, hres, by simpa using h⟩)
            · exact Or.inr (Or.inr (Or.inl ⟨edgeNode, res, hres, by simpa using h⟩))
            · exact Or.inr (Or.inr (Or.inr ⟨edgeNode, k, c, res, by simpa using h⟩))

/-- An element satisfying `p` in `a ++ b` lies in `b` when nothing in `a` satisfies `p`. -/
theorem split_after_quiet {α : Type} (p : α → Bool) :
    ∀ (a b pre post : List α) (x : α), (∀ z ∈ a, p z = false) → p x = true →
      a ++ b = pre ++ x :: post → ∃ mid, pre = a ++ mid ∧ b = mid ++ x :: post := by
  intro a
  induction a with
  | nil => intro b pre post x _ _ h; exact ⟨pre, by simp, by simpa using h⟩
  | cons z a ih =>
    intro b pre post x hq hx h
    cases pre with
    | nil =>
      simp at h
      have := hq z (by simp)
      rw [h.1] at this
      rw [this] at hx
      cases hx
    | cons y pre =>
      simp at h
      obtain ⟨mid, h1, h2⟩ := ih b pre post x (fun z hz => hq z (by simp [hz])) hx h.2
      exact ⟨mid, by simp [h.1, h1], h2⟩

/-- Claim C1. In every pass of `Reconcile`, whatever the collaborators answer (so in
every pass for a Registered node): if Verify did not succeed (it failed, or did not
return) then neither Issue nor Deliver is invoked; if Issue did not succeed then
Deliver is not invoked; every invocation of Issue comes after a successful Verify of
the same node, and every invocation of Deliver after a successful Issue for the same
node, which returned the very key and certificate that are delivered. -/
theorem reconcile_short_circuit {τ : Type} (C : Collaborators τ) (req : String) (w : τ) :
    (∀ n res, Invocation.AuthenticateEdgeNode n res ∈ (Reconcile C req (Run.start w)).2.trace →
      res ≠ .returned none →
      ∀ x ∈ (Reconcile C req (Run.start w)).2.trace, x.isIssue = false ∧ x.isDeliver = false) ∧
    (∀ n res, Invocation.ObtainUserAccount n res ∈ (Reconcile C req (Run.start w)).2.trace →
      (∀ k c, res ≠ .returned (k, c, none)) →
      ∀ x ∈ (Reconcile C req (Run.start w)).2.trace, x.isDeliver = false) ∧
    (∀ pre n res post,
      (Reconcile C req (Run.start w)).2.trace = pre ++ Invocation.ObtainUserAccount n res :: post →
      Invocation.AuthenticateEdgeNode n (.returned none) ∈ pre) ∧
    (∀ pre k c n res post,
      (Reconcile C req (Run.start w)).2.trace = pre ++ Invocation.DeployFledge k c n res :: post →
      Invocation.ObtainUserAccount n (.returned (k, c, none)) ∈ pre) := by
  obtain ⟨quiet, hquiet, hshape⟩ := reconcile_trace_shape C req w
  have hq : ∀ x ∈ quiet, x.isVerify = false ∧ x.isIssue = false ∧ x.isDeliver = false := by
    intro x hx
    have := hquiet x hx
    simpa [Invocation.isStep, and_assoc] using this
  have hnoV : ∀ n res, Invocation.AuthenticateEdgeNode n res ∉ quiet := by
    intro n res h
    simpa [Invocation.isVerify] using (hq _ h).1
  have hnoI : ∀ n res, Invocation.ObtainUserAccount n res ∉ quiet := by
    intro n res h
    simpa [Invocation.isIssue] using (hq _ h).2.1
  rcases hshape with h | ⟨n0, res0, hres0, h⟩ | ⟨n0, res0, hres0, h⟩ | ⟨n0, k0, c0, res0, h⟩ <;>
    rw [h] <;> refine ⟨?_, ?_, ?_, ?_⟩
  · intro n res hmem; exact absurd hmem (hnoV n res)
  · intro n res hmem; exact absurd hmem (hnoI n res)
  · intro pre n res post heq
    have : Invocation.ObtainUserAccount n res ∈ quiet := by rw [heq]; simp
    exact absurd this (hnoI n res)
  · intro pre k c n res post heq
    have : Invocation.DeployFledge k c n res ∈ quiet := by rw [heq]; simp
    simpa [Invocation.isDeliver] using (hq _ this).2.2
  -- Verify did not succeed
  · intro n res hmem hres x hx
    rcases List.mem_append.mp hx with hx | hx
    · exact (hq x hx).2
    · simp at hx; subst hx; simp [Invocation.isIssue, Invocation.isDeliver]
  · intro n res hmem
    rcases List.mem_append.mp hmem with hx | hx
    · exact absurd hx (hnoI n res)
    · simp at hx
  · intro pre n res post heq
    have : Invocation.ObtainUserAccount n res ∈ quiet ++ [Invocation.AuthenticateEdgeNode n0 res0] := by
      rw [heq]; simp
    rcases List.mem_append.mp this with hx | hx
    · exact absurd hx (hnoI n res)
    · simp at hx
  · intro pre k c n res post heq
    have : Invocation.DeployFledge k c n res ∈ quiet ++ [Invocation.AuthenticateEdgeNode n0 res0] := by
      rw [heq]; simp
    rcases List.mem_append.mp this with hx | hx
    · simpa [Invocation.isDeliver] using (hq _ hx).2.2
    · simp at hx
  -- Verify succeeded, Issue did not
  · intro n res hmem hres
    rcases List.mem_append.mp hmem with hx | hx
    · exact absurd hx (hnoV n res)
    · simp at hx; exact absurd hx.2 hres
  · intro n res hmem hres x hx
    rcases List.mem_append.mp hx with hx | hx
    · exact (hq x hx).2.2
    · simp at hx; rcases hx with hx | hx <;> subst hx <;> simp [Invocation.isDeliver]
  · intro pre n res post heq
    obtain ⟨mid, hpre, hmid⟩ := split_after_quiet Invocation.isIssue quiet _ pre post _
      (fun z hz => (hq z hz).2.1) (by simp [Invocation.isIssue]) heq
    rcases mid with _ | ⟨a, _ | ⟨b, mid⟩⟩
    · simp at hmid
    · simp at hmid
      rw [hpre, ← hmid.1, ← hmid.2.1.1]; simp
    · simp at hmid
  · intro pre k c n res post heq
    have : Invocation.DeployFledge k c n res ∈ quiet ++
        [Invocation.AuthenticateEdgeNode n0 (.returned none), Invocation.ObtainUserAccount n0 res0] := by
      rw [heq]; simp
    rcases List.mem_append.mp this with hx | hx
    · simpa [Invocation.isDeliver] using (hq _ hx).2.2
    · simp at hx
  -- Verify and Issue succeeded
  · intro n res hmem hres
    rcases List.mem_append.mp hmem with hx | hx
    · exact absurd hx (hnoV n res)
    · simp at hx; exact absurd hx.2 hres
  · intro n res hmem hres
    rcases List.mem_append.mp hmem with hx | hx
    · exact absurd hx (hnoI n res)
    · simp at hx; exact absurd hx.2 (hres k0 c0)
  · intro pre n res post heq
    obtain ⟨mid, hpre, hmid⟩ := split_after_quiet Invocation.isIssue quiet _ pre post _
      (fun z hz => (hq z hz).2.1) (by simp [Invocation.isIssue]) heq
    rcases mid with _ | ⟨a, _ | ⟨b, _ | ⟨d, mid⟩⟩⟩
    · simp at hmid
    · simp at hmid
      rw [hpre, ← hmid.1, ← hmid.2.1.1]; simp
    · simp at hmid
    · simp at hmid
  · intro pre k c n res post heq
    obtain ⟨mid, hpre, hmid⟩ := split_after_quiet Invocation.isDeliver quiet _ pre post _
      (fun z hz => (hq z hz).2.2) (by simp [Invocation.isDeliver]) heq
    rcases mid with _ | ⟨a, _ | ⟨b, _ | ⟨d, mid⟩⟩⟩
    · simp at hmid
    · simp at hmid
    · simp at hmid
      obtain ⟨_, hb, ⟨hk, hc, hn, _⟩, _⟩ := hmid
      rw [hpre, ← hb, ← hk, ← hc, ← hn]; simp
    · simp at hmid

/-- Witness of C1: in the pass for `node-1` on a cluster that already holds its signing
request, Issue fails and Deliver is not invoked. -/
theorem reconcile_short_circuit_witness :
    Invocation.ObtainUserAccount (exampleNode Registered)
        (.returned (none, none, some (.New "CSR already exists"))) ∈
      (Reconcile (Cluster.controller exampleHost 5) "node-1"
        (Run.start (Run.start clusterWithRequest))).2.trace ∧
    ∀ x ∈ (Reconcile (Cluster.controller exampleHost 5) "node-1"
        (Run.start (Run.start clusterWithRequest))).2.trace, x.isDeliver = false :=
  ⟨by decide,
   (reconcile_short_circuit (Cluster.controller exampleHost 5) "node-1"
      (Run.start clusterWithRequest)).2.1 (exampleNode Registered)
      (.returned (none, none, some (.New "CSR already exists"))) (by decide) (by simp)⟩

/-- Claim C2. When the registrar answers with status 200 and a body that parses,
`AuthenticateEdgeNode` returns nil exactly when the `ekcert` of the answer equals the
`EkCert` the node declares, and whenever the two differ it returns the error
"unable to validate TPM identity". -/
theorem authenticate_iff_ekcert_equal {σ : Type} (P : Platform σ) (edgenode : EdgeNode)
    (r : Run Call σ) (service : Service) (w1 w2 : σ) (resp : HTTPResponse) (body : Bytes)
    (responseData : ResponseData)
    (hservice : P.ServicesGet "keylime" "hhkl-keylime-registrar" r.world = (.ok service, w1))
    (hrequest : P.NewRequest "GET" (registrarURL service edgenode.Spec.UUID) = none)
    (hkeypair : P.LoadX509KeyPair "/var/lib/controller/certs/csr.crt"
      "/var/lib/controller/certs/csr.key" = none)
    (hdo : P.Do (registrarRequest service edgenode.Spec.UUID) w1 = (.ok resp, w2))
    (hstatus : resp.StatusCode = 200)
    (hbody : resp.Body = .ok body)
    (hjson : P.Unmarshal body = .ok responseData) :
    ((AuthenticateEdgeNode P edgenode r).1 = none ↔
        responseData.Results.EkCert = edgenode.Spec.EkCert) ∧
    (responseData.Results.EkCert ≠ edgenode.Spec.EkCert →
      (AuthenticateEdgeNode P edgenode r).1 = some (.New "unable to validate TPM identity")) := by
  unfold registrarRequest registrarURL at hdo
  unfold registrarURL at hrequest
  by_cases heq : edgenode.Spec.EkCert = responseData.Results.EkCert
  · simp [AuthenticateEdgeNode, hservice, hrequest, hkeypair, Run.log, hdo, hstatus, hbody,
      hjson, heq]
  · have heq' : ¬ responseData.Results.EkCert = edgenode.Spec.EkCert := fun h => heq h.symm
    simp [AuthenticateEdgeNode, hservice, hrequest, hkeypair, Run.log, hdo, hstatus, hbody,
      hjson, heq, heq']

/-- Witness of C2: on the example cluster the registrar reports `EK-1`; the node that
declares `EK-1` is authenticated, the node that declares `EK-2` is not. -/
theorem authenticate_iff_ekcert_equal_witness :
    (AuthenticateEdgeNode (Cluster.platform exampleHost) (exampleNode Registered)
      (Run.start (exampleCluster Registered))).1 = none ∧
    (AuthenticateEdgeNode (Cluster.platform exampleHost) impostorNode
      (Run.start (exampleCluster Registered))).1 =
        some (.New "unable to validate TPM identity") :=
  ⟨(authenticate_iff_ekcert_equal (Cluster.platform exampleHost) (exampleNode Registered)
      (Run.start (exampleCluster Registered))
      { ClusterIP := "10.0.0.1", Ports := [{ Name := "registrar-tls", Port := 8891 }] }
      (exampleCluster Registered) (exampleCluster Registered)
      { StatusCode := 200, Status := "200 OK", Body := .ok [123, 125] } [123, 125]
      registrarRecord rfl rfl rfl rfl rfl rfl rfl).1.mpr rfl,
   (authenticate_iff_ekcert_equal (Cluster.platform exampleHost) impostorNode
      (Run.start (exampleCluster Registered))
      { ClusterIP := "10.0.0.1", Ports := [{ Name := "registrar-tls", Port := 8891 }] }
      (exampleCluster Registered) (exampleCluster Registered)
      { StatusCode := 200, Status := "200 OK", Body := .ok [123, 125] } [123, 125]
      registrarRecord rfl rfl rfl rfl rfl rfl rfl).2 (by decide)⟩

/-- Claim C3. In a pass that reaches the switch, each of the four status values has
its own branch, and each branch is what the claim names it.
`unregistered`: the pass only records an event and returns complete.
`registered`: Verify, Issue, Deliver. Verify is invoked; if it fails the pass returns
its error with retry-after 10 seconds; if it succeeds Issue is invoked; if Issue fails
the pass returns its error with no requeue; if it succeeds Deliver is invoked with the
key and certificate Issue returned, and the pass returns what Deliver returns, with no
requeue: complete exactly when all three succeeded. A step that panics or never
returns ends the pass the same way. No call is made on the cluster roles.
`unattested`: revoke. The cluster role `uuid + "-cluster-role"` is fetched (the pass
panics if that fails) and written back with an empty rule list, and the pass returns
the outcome of the update with no requeue. None of the three steps is invoked.
`attested`: the pass only records an event and returns complete.
For every other status the pass returns the error "invalid node state for node <uuid>"
with no requeue, and invokes none of Verify, Issue, Deliver or Revoke.
In each case the invocations listed are all the pass makes. -/
theorem reconcile_dispatch_exhaustive {τ : Type} (C : Collaborators τ) (req : String) (w w1 : τ)
    (edgeNode : EdgeNode) (hswitch : C.reachesSwitch req w edgeNode w1) :
    (edgeNode.Spec.Status = Unregistered →
      Reconcile C req (Run.start w) =
        (.returned ({ Requeue := false, RequeueAfter := 0 }, none),
         { world := w1,
           trace := [.Get req none,
             .Eventf "Normal" "EdgeNodeUnregistered"
               "Edgenode resource was added but has not been registered with the registrar yet"] })) ∧
    (edgeNode.Spec.Status = Registered →
      -- Verify fails
      (∀ err wv, C.AuthenticateEdgeNode edgeNode w1 = (.returned (some err), wv) →
        Reconcile C req (Run.start w) =
          (.returned ({ Requeue := false, RequeueAfter := 10 * Second }, some err),
           { world := wv,
             trace := [.Get req none,
               .Eventf "Normal" "EdgeNodeRegistered" "Edgenode was registered by the registrar",
               .AuthenticateEdgeNode edgeNode (.returned (some err))] })) ∧
      -- Verify succeeds, Issue fails
      (∀ wv pKeyPEM certPEM err wi,
        C.AuthenticateEdgeNode edgeNode w1 = (.returned none, wv) →
        C.ObtainUserAccount edgeNode wv = (.returned (pKeyPEM, certPEM, some err), wi) →
        Reconcile C req (Run.start w) =
          (.returned ({ Requeue := false, RequeueAfter := 0 }, some err),
           { world := wi,
             trace := [.Get req none,
               .Eventf "Normal" "EdgeNodeRegistered" "Edgenode was registered by the registrar",
               .AuthenticateEdgeNode edgeNode (.returned none),
               .ObtainUserAccount edgeNode (.returned (pKeyPEM, certPEM, some err))] })) ∧
      -- Verify and Issue succeed: the pass returns what Deliver returns
      (∀ wv pKeyPEM certPEM wi result wd,
        C.AuthenticateEdgeNode edgeNode w1 = (.returned none, wv) →
        C.ObtainUserAccount edgeNode wv = (.returned (pKeyPEM, certPEM, none), wi) →
        C.DeployFledge pKeyPEM certPEM edgeNode wi = (.returned result, wd) →
        Reconcile C req (Run.start w) =
          (.returned ({ Requeue := false, RequeueAfter := 0 }, result),
           { world := wd,
             trace := [.Get req none,
               .Eventf "Normal" "EdgeNodeRegistered" "Edgenode was registered by the registrar",
               .AuthenticateEdgeNode edgeNode (.returned none),
               .ObtainUserAccount edgeNode (.returned (pKeyPEM, certPEM, none)),
               .DeployFledge pKeyPEM certPEM edgeNode (.returned result)] })) ∧
      -- a step panics
      (∀ msg wv, C.AuthenticateEdgeNode edgeNode w1 = (.panicked msg, wv) →
        Reconcile C req (Run.start w) =
          (.panicked msg,
           { world := wv,
             trace := [.Get req none,
               .Eventf "Normal" "EdgeNodeRegistered" "Edgenode was registered by the registrar",
               .AuthenticateEdgeNode edgeNode (.panicked msg)] })) ∧
      (∀ wv msg wi,
        C.AuthenticateEdgeNode edgeNode w1 = (.returned none, wv) →
        C.ObtainUserAccount edgeNode wv = (.panicked msg, wi) →
        Reconcile C req (Run.start w) =
          (.panicked msg,
           { world := wi,
             trace := [.Get req none,
               .Eventf "Normal" "EdgeNodeRegistered" "Edgenode was registered by the registrar",
               .AuthenticateEdgeNode edgeNode (.returned none),
               .ObtainUserAccount edgeNode (.panicked msg)] })) ∧
      (∀ wv pKeyPEM certPEM wi msg wd,
        C.AuthenticateEdgeNode edgeNode w1 = (.returned none, wv) →
        C.ObtainUserAccount edgeNode wv = (.returned (pKeyPEM, certPEM, none), wi) →
        C.DeployFledge pKeyPEM certPEM edgeNode wi = (.panicked msg, wd) →
        Reconcile C req (Run.start w) =
          (.panicked msg,
           { world := wd,
             trace := [.Get req none,
               .Eventf "Normal" "EdgeNodeRegistered" "Edgenode was registered by the registrar",
               .AuthenticateEdgeNode edgeNode (.returned none),
               .ObtainUserAccount edgeNode (.returned (pKeyPEM, certPEM, none)),
               .DeployFledge pKeyPEM certPEM edgeNode (.panicked msg)] })) ∧
      -- a step never returns
      (∀ wv, C.AuthenticateEdgeNode edgeNode w1 = (.hung, wv) →
        Reconcile C req (Run.start w) =
          (.hung,
           { world := wv,
             trace := [.Get req none,
               .Eventf "Normal" "EdgeNodeRegistered" "Edgenode was registered by the registrar",
               .AuthenticateEdgeNode edgeNode .hung] })) ∧
      (∀ wv wi,
        C.AuthenticateEdgeNode edgeNode w1 = (.returned none, wv) →
        C.ObtainUserAccount edgeNode wv = (.hung, wi) →
        Reconcile C req (Run.start w) =
          (.hung,
           { world := wi,
             trace := [.Get req none,
               .Eventf "Normal" "EdgeNodeRegistered" "Edgenode was registered by the registrar",
               .AuthenticateEdgeNode edgeNode (.returned none),
               .ObtainUserAccount edgeNode .hung] })) ∧
      (∀ wv pKeyPEM certPEM wi wd,
        C.AuthenticateEdgeNode edgeNode w1 = (.returned none, wv) →
        C.ObtainUserAccount edgeNode wv = (.returned (pKeyPEM, certPEM, none), wi) →
        C.DeployFledge pKeyPEM certPEM edgeNode wi = (.hung, wd) →
        Reconcile C req (Run.start w) =
          (.hung,
           { world := wd,
             trace := [.Get req none,
               .Eventf "Normal" "EdgeNodeRegistered" "Edgenode was registered by the registrar",
               .AuthenticateEdgeNode edgeNode (.returned none),
               .ObtainUserAccount edgeNode (.returned (pKeyPEM, certPEM, none)),
               .DeployFledge pKeyPEM certPEM edgeNode .hung] })) ∧
      -- no call on the cluster roles
      (∀ x ∈ (Reconcile C req (Run.start w)).2.trace, x.isRevoke = false)) ∧
    (edgeNode.Spec.Status = Unattested →
      -- the cluster role cannot be fetched
      (∀ err w2,
        C.ClusterRolesGet (edgeNode.Spec.UUID ++ "-cluster-role") w1 = (.error err, w2) →
        Reconcile C req (Run.start w) =
          (.panicked err.Error,
           { world := w2,
             trace := [.Get req none,
               .Eventf "Warning" "EdgeNodeUnattested" "Edgenode failed attesation",
               .ClusterRolesGet (edgeNode.Spec.UUID ++ "-cluster-role") (some err)] })) ∧
      -- it is fetched and written back without its rules
      (∀ clusterRole w2 answer w3,
        C.ClusterRolesGet (edgeNode.Spec.UUID ++ "-cluster-role") w1 = (.ok clusterRole, w2) →
        C.ClusterRolesUpdate { clusterRole with Rules := some [] } w2 = (answer, w3) →
        Reconcile C req (Run.start w) =
          (.returned ({ Requeue := false, RequeueAfter := 0 }, errOf answer),
           { world := w3,
             trace := [.Get req none,
               .Eventf "Warning" "EdgeNodeUnattested" "Edgenode failed attesation",
               .ClusterRolesGet (edgeNode.Spec.UUID ++ "-cluster-role") none,
               .ClusterRolesUpdate { clusterRole with Rules := some [] } (errOf answer)] })) ∧
      -- none of the three steps
      (∀ x ∈ (Reconcile C req (Run.start w)).2.trace, x.isStep = false)) ∧
    (edgeNode.Spec.Status = Attested →
      Reconcile C req (Run.start w) =
        (.returned ({ Requeue := false, RequeueAfter := 0 }, none),
         { world := w1,
           trace := [.Get req none,
             .Eventf "Normal" "EdgeNodeAttested" "Edgenode is attested"] })) ∧
    (edgeNode.Spec.Status ≠ Unregistered → edgeNode.Spec.Status ≠ Registered →
      edgeNode.Spec.Status ≠ Unattested → edgeNode.Spec.Status ≠ Attested →
      Reconcile C req (Run.start w) =
        (.returned ({ Requeue := false, RequeueAfter := 0 },
            some (.New ("invalid node state for node " ++ edgeNode.Spec.UUID))),
         { world := w1, trace := [.Get req none] }) ∧
      ∀ x ∈ (Reconcile C req (Run.start w)).2.trace, x.isStep = false ∧ x.isRevoke = false) := by
  obtain ⟨hget, hconfig, hclient, href⟩ := hswitch
  have hpass : Reconcile C req (Run.start w) =
      Reconcile.dispatch C edgeNode { world := w1, trace := [.Get req none] } := by
    simp [Reconcile, Run.start, Run.log, hget, hconfig, hclient, href]
  rw [hpass]
  refine ⟨?_, ?_, ?_, ?_, ?_⟩
  · intro hs
    simp [Reconcile.dispatch, hs, Run.log]
  · intro hs
    have h1 : ¬ (Registered = Unregistered) := by decide
    refine ⟨?_, ?_, ?_, ?_, ?_, ?_, ?_, ?_, ?_, ?_⟩
    · intro err wv hv
      simp [Reconcile.dispatch, hs, h1, Run.log, hv]
    · intro wv k c err wi hv hi
      simp [Reconcile.dispatch, hs, h1, Run.log, hv, hi]
    · intro wv k c wi result wd hv hi hd
      cases result <;> simp [Reconcile.dispatch, hs, h1, Run.log, hv, hi, hd]
    · intro msg wv hv
      simp [Reconcile.dispatch, hs, h1, Run.log, hv]
    · intro wv msg wi hv hi
      simp [Reconcile.dispatch, hs, h1, Run.log, hv, hi]
    · intro wv k c wi msg wd hv hi hd
      simp [Reconcile.dispatch, hs, h1, Run.log, hv, hi, hd]
    · intro wv hv
      simp [Reconcile.dispatch, hs, h1, Run.log, hv]
    · intro wv wi hv hi
      simp [Reconcile.dispatch, hs, h1, Run.log, hv, hi]
    · intro wv k c wi wd hv hi hd
      simp [Reconcile.dispatch, hs, h1, Run.log, hv, hi, hd]
    · simp only [Reconcile.dispatch, hs, h1, if_false, if_true, Run.log]
      split
      · simp [Invocation.isRevoke]
      · simp [Invocation.isRevoke]
      · simp [Invocation.isRevoke]
      · split
        · simp [Invocation.isRevoke]
        · simp [Invocation.isRevoke]
        · simp [Invocation.isRevoke]
        · split <;> simp [Invocation.isRevoke]
  · intro hs
    have h1 : ¬ (Unattested = Unregistered) := by decide
    have h2 : ¬ (Unattested = Registered) := by decide
    refine ⟨?_, ?_, ?_⟩
    · intro err w2 hg
      simp [Reconcile.dispatch, hs, h1, h2, Run.log, hg]
    · intro clusterRole w2 answer w3 hg hu
      cases answer <;> simp [Reconcile.dispatch, hs, h1, h2, Run.log, hg, hu, errOf]
    · simp only [Reconcile.dispatch, hs, h1, h2, if_false, if_true, Run.log]
      split
      · simp [Invocation.isStep, Invocation.isVerify, Invocation.isIssue, Invocation.isDeliver]
      · split <;>
          simp [Invocation.isStep, Invocation.isVerify, Invocation.isIssue, Invocation.isDeliver]
  · intro hs
    have h1 : ¬ (Attested = Unregistered) := by decide
    have h2 : ¬ (Attested = Registered) := by decide
    have h3 : ¬ (Attested = Unattested) := by decide
    simp [Reconcile.dispatch, hs, h1, h2, h3, Run.log]
  · intro h1 h2 h3 h4
    simp [Reconcile.dispatch, h1, h2, h3, h4, Invocation.isStep, Invocation.isVerify,
      Invocation.isIssue, Invocation.isDeliver, Invocation.isRevoke]

/-- Witness of C3: the branches on the example cluster, with `node-1` declared
unregistered; registered, with the three steps succeeding, and with Verify failing;
unattested, with its cluster role granted; attested; and in the status `bogus`. -/
theorem reconcile_dispatch_exhaustive_witness :
    (Reconcile (Cluster.controller exampleHost 5) "node-1"
        (Run.start (Run.start (exampleCluster Unregistered)))).1 =
      .returned ({ Requeue := false, RequeueAfter := 0 }, none) ∧
    ((Reconcile (Cluster.controller exampleHost 5) "node-1"
        (Run.start (Run.start clusterIssuing))).1 =
      .returned ({ Requeue := false, RequeueAfter := 0 }, none) ∧
     (Reconcile (Cluster.controller exampleHost 5) "node-1"
        (Run.start (Run.start clusterIssuing))).2.trace =
      [.Get "node-1" none,
       .Eventf "Normal" "EdgeNodeRegistered" "Edgenode was registered by the registrar",
       .AuthenticateEdgeNode (exampleNode Registered) (.returned none),
       .ObtainUserAccount (exampleNode Registered) (.returned (some [7], some [9, 9], none)),
       .DeployFledge (some [7]) (some [9, 9]) (exampleNode Registered) (.returned none)]) ∧
    (Reconcile (Cluster.controller exampleHost 5) "node-1"
        (Run.start (Run.start clusterOfImpostor))).1 =
      .returned ({ Requeue := false, RequeueAfter := 10 * Second },
        some (.New "unable to validate TPM identity")) ∧
    ((Reconcile (Cluster.controller exampleHost 5) "node-1"
        (Run.start (Run.start clusterUnattested))).1 =
      .returned ({ Requeue := false, RequeueAfter := 0 }, none) ∧
     (Reconcile (Cluster.controller exampleHost 5) "node-1"
        (Run.start (Run.start clusterUnattested))).2.trace =
      [.Get "node-1" none,
       .Eventf "Warning" "EdgeNodeUnattested" "Edgenode failed attesation",
       .ClusterRolesGet "node-1-cluster-role" none,
       .ClusterRolesUpdate
         { Name := "node-1-cluster-role", Metadata := [("uid", "r-1")], Rules := some [] }
         none]) ∧
    (Reconcile (Cluster.controller exampleHost 5) "node-1"
        (Run.start (Run.start (exampleCluster Attested)))).1 =
      .returned ({ Requeue := false, RequeueAfter := 0 }, none) ∧
    (Reconcile (Cluster.controller exampleHost 5) "node-1"
        (Run.start (Run.start (exampleCluster "bogus")))).1 =
      .returned ({ Requeue := false, RequeueAfter := 0 },
        some (.New "invalid node state for node node-1")) := by
  have hunregistered :=
    (reconcile_dispatch_exhaustive (Cluster.controller exampleHost 5) "node-1"
      (Run.start (exampleCluster Unregistered)) (Run.start (exampleCluster Unregistered))
      (exampleNode Unregistered) ⟨rfl, rfl, rfl, rfl⟩).1 rfl
  have hregistered :=
    ((reconcile_dispatch_exhaustive (Cluster.controller exampleHost 5) "node-1"
      (Run.start clusterIssuing) (Run.start clusterIssuing)
      (exampleNode Registered) ⟨rfl, rfl, rfl, rfl⟩).2.1 rfl).2.2.1
      (AuthenticateEdgeNode (Cluster.platform exampleHost) (exampleNode Registered)
        (Run.start clusterIssuing)).2
      (some [7]) (some [9, 9])
      (ObtainUserAccount (Cluster.platform exampleHost) 5 (exampleNode Registered)
        (AuthenticateEdgeNode (Cluster.platform exampleHost) (exampleNode Registered)
          (Run.start clusterIssuing)).2).2
      none
      (DeployFledge (Cluster.platform exampleHost) (some [7]) (some [9, 9])
        (exampleNode Registered)
        (ObtainUserAccount (Cluster.platform exampleHost) 5 (exampleNode Registered)
          (AuthenticateEdgeNode (Cluster.platform exampleHost) (exampleNode Registered)
            (Run.start clusterIssuing)).2).2).2
      (by decide) (by decide) (by decide)
  have himpostor :=
    ((reconcile_dispatch_exhaustive (Cluster.controller exampleHost 5) "node-1"
      (Run.start clusterOfImpostor) (Run.start clusterOfImpostor) impostorNode
      ⟨rfl, rfl, rfl, rfl⟩).2.1 rfl).1 (.New "unable to validate TPM identity")
      (AuthenticateEdgeNode (Cluster.platform exampleHost) impostorNode
        (Run.start clusterOfImpostor)).2 (by decide)
  have hunattested :=
    ((reconcile_dispatch_exhaustive (Cluster.controller exampleHost 5) "node-1"
      (Run.start clusterUnattested) (Run.start clusterUnattested)
      (exampleNode Unattested) ⟨rfl, rfl, rfl, rfl⟩).2.2.1 rfl).2.1
      grantedRole
      { world := clusterUnattested, trace := [.ClusterRolesGet "node-1-cluster-role" none] }
      (.ok { Name := "node-1-cluster-role", Metadata := [("uid", "r-1")], Rules := some [] })
      { world := { clusterUnattested with clusterRoles :=
          [{ Name := "node-1-cluster-role", Metadata := [("uid", "r-1")], Rules := some [] }] },
        trace := [.ClusterRolesGet "node-1-cluster-role" none,
          .ClusterRolesUpdate
            { Name := "node-1-cluster-role", Metadata := [("uid", "r-1")], Rules := some [] }
            none] }
      rfl rfl
  have hattested :=
    (reconcile_dispatch_exhaustive (Cluster.controller exampleHost 5) "node-1"
      (Run.start (exampleCluster Attested)) (Run.start (exampleCluster Attested))
      (exampleNode Attested) ⟨rfl, rfl, rfl, rfl⟩).2.2.2.1 rfl
  have hbogus :=
    ((reconcile_dispatch_exhaustive (Cluster.controller exampleHost 5) "node-1"
      (Run.start (exampleCluster "bogus")) (Run.start (exampleCluster "bogus"))
      (exampleNode "bogus") ⟨rfl, rfl, rfl, rfl⟩).2.2.2.2
        (by decide) (by decide) (by decide) (by decide)).1
  exact ⟨congrArg Prod.fst hunregistered,
    ⟨congrArg Prod.fst hregistered, congrArg (fun p => p.2.trace) hregistered⟩,
    congrArg Prod.fst himpostor,
    ⟨congrArg Prod.fst hunattested, congrArg (fun p => p.2.trace) hunattested⟩,
    congrArg Prod.fst hattested,
    congrArg Prod.fst hbogus⟩

/-- Claim C4. For every node, if the signing authority holds a request under the name
`uuid + "-csr"` (the lookup of that name returns one), then `ObtainUserAccount`, and
`createCertificateSigningRequest` inside it, fail with the error "CSR already exists"
and return neither key nor certificate; the lookup is the only call they make: no key
is generated, nothing is created, approved or deleted, and the authority is left in
the state the lookup left it in. -/
theorem issue_duplicate_request {σ : Type} (P : Platform σ) (fuel : Nat) (edgeNode : EdgeNode)
    (w w1 : σ) (existing : CertificateSigningRequest)
    (hheld : P.CSRGet (edgeNode.Spec.UUID ++ "-csr") w = (.ok existing, w1)) :
    ObtainUserAccount P fuel edgeNode (Run.start w) =
      (.returned (none, none, some (.New "CSR already exists")),
       { world := w1, trace := [.CSRGet (edgeNode.Spec.UUID ++ "-csr") none] }) ∧
    createCertificateSigningRequest P edgeNode (Run.start w) =
      ((none, none, some (.New "CSR already exists")),
       { world := w1, trace := [.CSRGet (edgeNode.Spec.UUID ++ "-csr") none] }) := by
  have hcreate : createCertificateSigningRequest P edgeNode (Run.start w) =
      ((none, none, some (.New "CSR already exists")),
       { world := w1, trace := [.CSRGet (edgeNode.Spec.UUID ++ "-csr") none] }) := by
    simp [createCertificateSigningRequest, Run.start, Run.log, hheld]
  exact ⟨by simp [ObtainUserAccount, hcreate], hcreate⟩

/-- Witness of C4: on the cluster that holds the pending request `node-1-csr`, Issue for
`node-1` fails as a duplicate and the cluster is unchanged. -/
theorem issue_duplicate_request_witness :
    ObtainUserAccount (Cluster.platform exampleHost) 5 (exampleNode Registered)
        (Run.start clusterWithRequest) =
      (.returned (none, none, some (.New "CSR already exists")),
       { world := clusterWithRequest, trace := [.CSRGet "node-1-csr" none] }) :=
  (issue_duplicate_request (Cluster.platform exampleHost) 5 (exampleNode Registered)
    clusterWithRequest clusterWithRequest pendingRequest rfl).1

/-- Claim C5, at the input on which it fails. The authority approves the request of
`node-1` while it is created, so `Create` returns it with the condition Approved in
first place; `ObtainUserAccount` then returns a nil error, having made no call to
delete the request, and the authority still holds the request `node-1-csr`. -/
theorem issue_already_approved_keeps_request :
    (∃ pKeyPEM certPEM,
      (ObtainUserAccount (Cluster.platform exampleHost) 5 (exampleNode Registered)
        (Run.start authorityApprovingOnCreate)).1 = .returned (pKeyPEM, certPEM, none)) ∧
    (∀ name err, Call.CSRDelete name err ∉
      (ObtainUserAccount (Cluster.platform exampleHost) 5 (exampleNode Registered)
        (Run.start authorityApprovingOnCreate)).2.trace) ∧
    (ObtainUserAccount (Cluster.platform exampleHost) 5 (exampleNode Registered)
        (Run.start authorityApprovingOnCreate)).2.world.csr "node-1-csr" =
      some { Name := "node-1-csr", Request := some [110, 111, 100, 101, 45, 49, 7],
             Usages := [UsageDigitalSignature, UsageKeyEncipherment, UsageClientAuth],
             SignerName := "kubernetes.io/kube-apiserver-client",
             Conditions := some [approvedCondition], Certificate := none } := by
  refine ⟨⟨some [7], none, by decide⟩, ?_, by decide⟩
  have htrace : (ObtainUserAccount (Cluster.platform exampleHost) 5 (exampleNode Registered)
      (Run.start authorityApprovingOnCreate)).2.trace =
      [.CSRGet "node-1-csr" (some (.NotFound "node-1-csr")),
       .GenerateKey 2048 none,
       .CreateCertificateRequest "node-1" none,
       .CSRCreate { Name := "node-1-csr", Request := some [110, 111, 100, 101, 45, 49, 7],
                    Usages := [UsageDigitalSignature, UsageKeyEncipherment, UsageClientAuth],
                    SignerName := "kubernetes.io/kube-apiserver-client",
                    Conditions := none, Certificate := none } none,
       .ClusterRolesCreate { Name := "node-1-cluster-role", Metadata := [],
                             Rules := some [{ Verbs := ["get", "list", "watch"],
                                              APIGroups := [""], Resources := ["pods"] }] } none,
       .ClusterRoleBindingsCreate
         { Name := "node-1-cluster-role-binding",
           Subjects := [{ Kind := "User", Name := "node-1", Namespace := "default" }],
           RoleRef := { Kind := "ClusterRole", Name := "node-1-cluster-role" } } none] := by
    decide
  intro name err h
  rw [htrace] at h
  simp at h

/-- The polling loop only adds lookups to the trace. -/
theorem pollCertificate_trace {σ : Type} (P : Platform σ) :
    ∀ (fuel : Nat) (csr : CertificateSigningRequest) (r : Run Call σ)
      (out : Outcome (Except GoError (CertificateSigningRequest × Bytes))) (r2 : Run Call σ),
      pollCertificate P fuel csr r = (out, r2) →
      ∃ gets, r2.trace = r.trace ++ gets ∧ ∀ c ∈ gets, ∃ name err, c = Call.CSRGet name err := by
  intro fuel
  induction fuel with
  | zero =>
    intro csr r out r2 h
    simp [pollCertificate] at h
    exact ⟨[], by simp [← h.2], by simp⟩
  | succ fuel ih =>
    intro csr r out r2 h
    unfold pollCertificate at h
    split at h
    · rename_i err w _
      simp at h
      exact ⟨[.CSRGet csr.Name (some err)], by simp [← h.2, Run.log], by simp⟩
    · rename_i csr1 w _
      simp only at h
      split at h
      · obtain ⟨gets, h1, h2⟩ := ih csr1 (r.log (.CSRGet csr.Name none) w) out r2 h
        refine ⟨.CSRGet csr.Name none :: gets, ?_, ?_⟩
        · rw [h1]; simp [Run.log]
        · intro c hc
          rcases List.mem_cons.mp hc with hc | hc
          · exact ⟨_, _, hc⟩
          · exact h2 c hc
      · simp at h
        exact ⟨[.CSRGet csr.Name none], by simp [← h.2, Run.log], by simp⟩

/-- A failed deletion that appears in the trace during `approveCertificateSigningRequest`
is what it returns, with a nil certificate. -/
theorem approve_delete_failure_from {σ : Type} (P : Platform σ) (fuel : Nat)
    (csr : Option CertificateSigningRequest) (r : Run Call σ) (name : String) (err : GoError)
    (hbefore : Call.CSRDelete name (some err) ∉ r.trace) :
    Call.CSRDelete name (some err) ∈ (approveCertificateSigningRequest P fuel csr r).2.trace →
    (approveCertificateSigningRequest P fuel csr r).1 = .returned (none, some err) := by
  unfold approveCertificateSigningRequest
  split
  · intro h; exact absurd h hbefore
  · split
    · intro h; exact absurd h hbefore
    · intro h; exact absurd h hbefore
    · intro h; exact absurd h hbefore
    · simp only
      split
      · intro h; simp [Run.log] at h; exact absurd h hbefore
      · split
        · rename_i hp
          obtain ⟨gets, hg, hget⟩ := pollCertificate_trace P fuel _ _ _ _ hp
          intro h
          simp only [hg, Run.log] at h
          simp at h
          rcases h with h | h
          · exact absurd h hbefore
          · obtain ⟨n, e, hc⟩ := hget _ h
            cases hc
        · rename_i hp
          obtain ⟨gets, hg, hget⟩ := pollCertificate_trace P fuel _ _ _ _ hp
          intro h
          simp only [hg, Run.log] at h
          simp at h
          rcases h with h | h
          · exact absurd h hbefore
          · obtain ⟨n, e, hc⟩ := hget _ h
            cases hc
        · rename_i hp
          obtain ⟨gets, hg, hget⟩ := pollCertificate_trace P fuel _ _ _ _ hp
          intro h
          simp only [hg, Run.log] at h
          simp at h
          rcases h with h | h
          · exact absurd h hbefore
          · obtain ⟨n, e, hc⟩ := hget _ h
            cases hc
        · rename_i hp
          obtain ⟨gets, hg, hget⟩ := pollCertificate_trace P fuel _ _ _ _ hp
          split
          · intro h
            simp only [hg, Run.log] at h
            simp at h
            rcases h with h | h | h
            · exact absurd h hbefore
            · obtain ⟨n, e, hc⟩ := hget _ h
              cases hc
            · simp [h.2]
          · intro h
            simp only [hg, Run.log] at h
            simp at h
            rcases h with h | h
            · exact absurd h hbefore
            · obtain ⟨n, e, hc⟩ := hget _ h
              cases hc

/-- Claim C6 fails as stated: the authority holds the pending request of `node-1`, the
approval is accepted, the signer issues the certificate `[9, 9]`, the poll reads it,
and the deletion of the request is refused. `approveCertificateSigningRequest` returns
the deletion error with a nil certificate, although the authority did issue one. -/
theorem approve_delete_failure_drops_certificate :
    (approveCertificateSigningRequest (Cluster.platform exampleHost) 5 (some pendingRequest)
        (Run.start authorityRefusingDelete)).1 = .returned (none, some (.Other "forbidden")) ∧
    ((approveCertificateSigningRequest (Cluster.platform exampleHost) 5 (some pendingRequest)
        (Run.start authorityRefusingDelete)).2.world.csr "node-1-csr").map
          (fun csr => csr.Certificate) = some (some [9, 9]) ∧
    (approveCertificateSigningRequest (Cluster.platform exampleHost) 5 (some pendingRequest)
        (Run.start authorityRefusingDelete)).2.trace.drop 1 =
      [.CSRGet "node-1-csr" none, .CSRDelete "node-1-csr" (some (.Other "forbidden"))] ∧
    ¬ ∃ err, (approveCertificateSigningRequest (Cluster.platform exampleHost) 5
        (some pendingRequest) (Run.start authorityRefusingDelete)).1 =
          .returned (some [9, 9], err) := by
  refine ⟨by decide, by decide, by decide, ?_⟩
  rintro ⟨err, h⟩
  have h1 : (approveCertificateSigningRequest (Cluster.platform exampleHost) 5
      (some pendingRequest) (Run.start authorityRefusingDelete)).1 =
      .returned (none, some (.Other "forbidden")) := by decide
  rw [h1] at h
  cases h

/-- Claim C6, amended. In every run of `approveCertificateSigningRequest` in which the
deletion of the signing request fails (the step the code reaches only once a poll
has read a certificate), the deletion error is what is returned, and the certificate
returned with it is nil. -/
theorem approve_delete_failure {σ : Type} (P : Platform σ) (fuel : Nat)
    (csr : Option CertificateSigningRequest) (w : σ) (name : String) (err : GoError)
    (hdelete : Call.CSRDelete name (some err) ∈
      (approveCertificateSigningRequest P fuel csr (Run.start w)).2.trace) :
    (approveCertificateSigningRequest P fuel csr (Run.start w)).1 =
      .returned (none, some err) :=
  approve_delete_failure_from P fuel csr (Run.start w) name err (by simp [Run.start]) hdelete

/-- Witness of the amended C6: the authority that issues `[9, 9]` and then refuses the
deletion of the request of `node-1`. -/
theorem approve_delete_failure_witness :
    Call.CSRDelete "node-1-csr" (some (.Other "forbidden")) ∈
      (approveCertificateSigningRequest (Cluster.platform exampleHost) 5 (some pendingRequest)
        (Run.start authorityRefusingDelete)).2.trace ∧
    (approveCertificateSigningRequest (Cluster.platform exampleHost) 5 (some pendingRequest)
        (Run.start authorityRefusingDelete)).1 = .returned (none, some (.Other "forbidden")) :=
  ⟨by decide,
   approve_delete_failure (Cluster.platform exampleHost) 5 (some pendingRequest)
     authorityRefusingDelete "node-1-csr" (.Other "forbidden") (by decide)⟩

/-- Claim C7, at the input on which it fails. The authority approves the request of
`node-1` while it is created, so `Create` returns it with the condition Approved in
first place; `approveCertificateSigningRequest` returns `nil, nil` for it, and
`ObtainUserAccount` returns the private key with a nil certificate and a nil error. -/
theorem issue_already_approved_returns_nil_certificate :
    (createCertificateSigningRequest (Cluster.platform exampleHost) (exampleNode Registered)
        (Run.start authorityApprovingOnCreate)).1 =
      (some { Name := "node-1-csr", Request := some [110, 111, 100, 101, 45, 49, 7],
              Usages := [UsageDigitalSignature, UsageKeyEncipherment, UsageClientAuth],
              SignerName := "kubernetes.io/kube-apiserver-client",
              Conditions := some [approvedCondition], Certificate := none },
       some [7], none) ∧
    (ObtainUserAccount (Cluster.platform exampleHost) 5 (exampleNode Registered)
        (Run.start authorityApprovingOnCreate)).1 = .returned (some [7], none, none) := by
  exact ⟨by decide, by decide⟩

/-- Claim C8 fails as stated: in the pass for the Registered `node-1` on a cluster
that already holds its signing request, Verify succeeds and Issue fails, and the
directive returned with the error is the zero `Result`, not retry-after 10 seconds. -/
theorem registered_issue_failure_no_retry_after :
    (exampleNode Registered).Spec.Status = Registered ∧
    Invocation.ObtainUserAccount (exampleNode Registered)
        (.returned (none, none, some (.New "CSR already exists"))) ∈
      (Reconcile (Cluster.controller exampleHost 5) "node-1"
        (Run.start (Run.start clusterWithRequest))).2.trace ∧
    (Reconcile (Cluster.controller exampleHost 5) "node-1"
        (Run.start (Run.start clusterWithRequest))).1 =
      .returned ({ Requeue := false, RequeueAfter := 0 }, some (.New "CSR already exists")) ∧
    ¬ ∃ err, (Reconcile (Cluster.controller exampleHost 5) "node-1"
        (Run.start (Run.start clusterWithRequest))).1 =
      .returned ({ Requeue := false, RequeueAfter := 10 * Second }, err) := by
  refine ⟨rfl, by decide, by decide, ?_⟩
  rintro ⟨err, h⟩
  have h1 : (Reconcile (Cluster.controller exampleHost 5) "node-1"
      (Run.start (Run.start clusterWithRequest))).1 =
      .returned ({ Requeue := false, RequeueAfter := 0 }, some (.New "CSR already exists")) := by
    decide
  rw [h1] at h
  simp [Second] at h

/-- Claim C8, amended. In a pass for a Registered node: if Verify fails, the directive
returned with its error is retry-after 10 seconds; if Issue fails, or if Deliver fails,
the directive returned with the error of the step is the zero `Result`: no requeue and
no delay. -/
theorem registered_failure_directive {τ : Type} (C : Collaborators τ) (req : String) (w w1 : τ)
    (edgeNode : EdgeNode) (hswitch : C.reachesSwitch req w edgeNode w1)
    (hstatus : edgeNode.Spec.Status = Registered) :
    (∀ err wv, C.AuthenticateEdgeNode edgeNode w1 = (.returned (some err), wv) →
      (Reconcile C req (Run.start w)).1 =
        .returned ({ Requeue := false, RequeueAfter := 10 * Second }, some err)) ∧
    (∀ wv pKeyPEM certPEM err wi,
      C.AuthenticateEdgeNode edgeNode w1 = (.returned none, wv) →
      C.ObtainUserAccount edgeNode wv = (.returned (pKeyPEM, certPEM, some err), wi) →
      (Reconcile C req (Run.start w)).1 =
        .returned ({ Requeue := false, RequeueAfter := 0 }, some err)) ∧
    (∀ wv pKeyPEM certPEM wi err wd,
      C.AuthenticateEdgeNode edgeNode w1 = (.returned none, wv) →
      C.ObtainUserAccount edgeNode wv = (.returned (pKeyPEM, certPEM, none), wi) →
      C.DeployFledge pKeyPEM certPEM edgeNode wi = (.returned (some err), wd) →
      (Reconcile C req (Run.start w)).1 =
        .returned ({ Requeue := false, RequeueAfter := 0 }, some err)) := by
  obtain ⟨hget, hconfig, hclient, href⟩ := hswitch
  have hpass : Reconcile C req (Run.start w) =
      Reconcile.dispatch C edgeNode { world := w1, trace := [.Get req none] } := by
    simp [Reconcile, Run.start, Run.log, hget, hconfig, hclient, href]
  have h1 : ¬ (Registered = Unregistered) := by decide
  rw [hpass]
  refine ⟨?_, ?_, ?_⟩
  · intro err wv hv
    simp [Reconcile.dispatch, hstatus, h1, Run.log, hv]
  · intro wv k c err wi hv hi
    simp [Reconcile.dispatch, hstatus, h1, Run.log, hv, hi]
  · intro wv k c wi err wd hv hi hd
    simp [Reconcile.dispatch, hstatus, h1, Run.log, hv, hi, hd]

/-- Witness of the amended C8: Verify fails for the node declared with `EK-2`, and Issue
fails on the cluster that already holds the request of `node-1`. -/
theorem registered_failure_directive_witness :
    (Reconcile (Cluster.controller exampleHost 5) "node-1"
        (Run.start (Run.start clusterOfImpostor))).1 =
      .returned ({ Requeue := false, RequeueAfter := 10 * Second },
        some (.New "unable to validate TPM identity")) ∧
    (Reconcile (Cluster.controller exampleHost 5) "node-1"
        (Run.start (Run.start clusterWithRequest))).1 =
      .returned ({ Requeue := false, RequeueAfter := 0 }, some (.New "CSR already exists")) :=
  ⟨(registered_failure_directive (Cluster.controller exampleHost 5) "node-1"
      (Run.start clusterOfImpostor) (Run.start clusterOfImpostor) impostorNode
      ⟨rfl, rfl, rfl, rfl⟩ rfl).1 (.New "unable to validate TPM identity")
      (AuthenticateEdgeNode (Cluster.platform exampleHost) impostorNode
        (Run.start clusterOfImpostor)).2 (by decide),
   (registered_failure_directive (Cluster.controller exampleHost 5) "node-1"
      (Run.start clusterWithRequest) (Run.start clusterWithRequest) (exampleNode Registered)
      ⟨rfl, rfl, rfl, rfl⟩ rfl).2.1
      (AuthenticateEdgeNode (Cluster.platform exampleHost) (exampleNode Registered)
        (Run.start clusterWithRequest)).2
      none none (.New "CSR already exists")
      (ObtainUserAccount (Cluster.platform exampleHost) 5 (exampleNode Registered)
        (AuthenticateEdgeNode (Cluster.platform exampleHost) (exampleNode Registered)
          (Run.start clusterWithRequest)).2).2
      (by decide) (by decide)⟩

/-- Claim C9. In a pass for an Unattested node whose cluster role
`uuid + "-cluster-role"` exists, whatever its rules: the object passed to `Update` has
an empty rule list and the name and metadata of the fetched object, and `Get` and
`Update` of the cluster role are the only calls on the backend; if the update succeeds,
the pass returns complete (no requeue) with a nil error. -/
theorem unattested_revokes {τ : Type} (C : Collaborators τ) (req : String) (w w1 w2 : τ)
    (edgeNode : EdgeNode) (clusterRole : ClusterRole)
    (hswitch : C.reachesSwitch req w edgeNode w1)
    (hstatus : edgeNode.Spec.Status = Unattested)
    (hrole : C.ClusterRolesGet (edgeNode.Spec.UUID ++ "-cluster-role") w1 = (.ok clusterRole, w2)) :
    (∃ written : ClusterRole,
      written.Rules = some [] ∧ written.Name = clusterRole.Name ∧
      written.Metadata = clusterRole.Metadata ∧
      (Reconcile C req (Run.start w)).2.trace =
        [.Get req none,
         .Eventf "Warning" "EdgeNodeUnattested" "Edgenode failed attesation",
         .ClusterRolesGet (edgeNode.Spec.UUID ++ "-cluster-role") none,
         .ClusterRolesUpdate written (errOf (C.ClusterRolesUpdate written w2).1)] ∧
      (∀ updated w3, C.ClusterRolesUpdate written w2 = (.ok updated, w3) →
        Reconcile C req (Run.start w) =
          (.returned ({ Requeue := false, RequeueAfter := 0 }, none),
           { world := w3,
             trace := [.Get req none,
               .Eventf "Warning" "EdgeNodeUnattested" "Edgenode failed attesation",
               .ClusterRolesGet (edgeNode.Spec.UUID ++ "-cluster-role") none,
               .ClusterRolesUpdate written none] }))) := by
  obtain ⟨hget, hconfig, hclient, href⟩ := hswitch
  have hpass : Reconcile C req (Run.start w) =
      Reconcile.dispatch C edgeNode { world := w1, trace := [.Get req none] } := by
    simp [Reconcile, Run.start, Run.log, hget, hconfig, hclient, href]
  have h1 : ¬ (Unattested = Unregistered) := by decide
  have h2 : ¬ (Unattested = Registered) := by decide
  rw [hpass]
  refine ⟨{ clusterRole with Rules := some [] }, rfl, rfl, rfl, ?_, ?_⟩
  · simp only [Reconcile.dispatch, hstatus, h1, h2, if_false, if_true, Run.log, hrole]
    split
    · rename_i h; simp [h, errOf]
    · rename_i h; simp [h, errOf]
  · intro updated w3 hupd
    simp [Reconcile.dispatch, hstatus, h1, h2, Run.log, hrole, hupd]

/-- Witness of C9: on the example cluster, where the role of `node-1` grants
get/list/watch on pods, the pass for the unattested `node-1` returns complete and
leaves the role with its name and metadata and no rule. -/
theorem unattested_revokes_witness :
    (Reconcile (Cluster.controller exampleHost 5) "node-1"
        (Run.start (Run.start clusterUnattested))).1 =
      .returned ({ Requeue := false, RequeueAfter := 0 }, none) ∧
    (Reconcile (Cluster.controller exampleHost 5) "node-1"
        (Run.start (Run.start clusterUnattested))).2.world.world.clusterRoles =
      [{ Name := "node-1-cluster-role", Metadata := [("uid", "r-1")], Rules := some [] }] := by
  obtain ⟨written, hrules, hname, hmeta, _, hdone⟩ :=
    unattested_revokes (Cluster.controller exampleHost 5) "node-1"
      (Run.start clusterUnattested) (Run.start clusterUnattested)
      { world := clusterUnattested,
        trace := [.ClusterRolesGet "node-1-cluster-role" none] }
      (exampleNode Unattested) grantedRole ⟨rfl, rfl, rfl, rfl⟩ rfl rfl
  have hwritten : written =
      { Name := "node-1-cluster-role", Metadata := [("uid", "r-1")], Rules := some [] } := by
    cases written
    simp_all [grantedRole]
  subst hwritten
  have h := hdone
    { Name := "node-1-cluster-role", Metadata := [("uid", "r-1")], Rules := some [] }
    { world := { clusterUnattested with clusterRoles :=
        [{ Name := "node-1-cluster-role", Metadata := [("uid", "r-1")], Rules := some [] }] },
      trace := [.ClusterRolesGet "node-1-cluster-role" none,
        .ClusterRolesUpdate
          { Name := "node-1-cluster-role", Metadata := [("uid", "r-1")], Rules := some [] }
          none] }
    rfl
  rw [h]
  exact ⟨rfl, rfl⟩

/-- Claim C10. Whenever `packageZIP` succeeds, the script was read from `autorun.sh` and
the archive has exactly the three entries `cert.pem`, `key.pem`, `autorun.sh`, in this
order, holding the bytes of the certificate, of the private key and of the script;
reading the three names back from the archive gives these inputs. If the script
cannot be read, `packageZIP` returns an error and a nil buffer. -/
theorem packageZIP_three_entries {σ : Type} (P : Platform σ) (pKeyPEM certPEM : ByteSlice) :
    ((packageZIP P pKeyPEM certPEM).1 = none →
      ∃ runScript archive, P.ReadFile "autorun.sh" = .ok runScript ∧
        packageZIP P pKeyPEM certPEM = (none, some archive) ∧
        archive = [{ Name := "cert.pem", Data := bytesOf certPEM },
                   { Name := "key.pem", Data := bytesOf pKeyPEM },
                   { Name := "autorun.sh", Data := runScript }] ∧
        archive.read "cert.pem" = some (bytesOf certPEM) ∧
        archive.read "key.pem" = some (bytesOf pKeyPEM) ∧
        archive.read "autorun.sh" = some runScript) ∧
    (∀ err, P.ReadFile "autorun.sh" = .error err →
      (packageZIP P pKeyPEM certPEM).1 ≠ none ∧ (packageZIP P pKeyPEM certPEM).2 = none) := by
  unfold packageZIP
  constructor
  · intro h
    split at h <;> try (simp at h)
    split at h <;> try (simp at h)
    split at h <;> try (simp at h)
    split at h <;> try (simp at h)
    split at h <;> try (simp at h)
    split at h <;> try (simp at h)
    split at h <;> try (simp at h)
    split at h <;> try (simp at h)
    rename_i runScript hread _ _ _ _ _ _
    refine ⟨runScript, _, hread, rfl, ?_⟩
    simp [ZipWriter.NewWriter, ZipWriter.Create, ZipWriter.Write, Archive.read]
  · intro err herr
    simp only [herr]
    split <;> (try split) <;> (try split) <;> (try split) <;> simp

/-- Witness of C10: on the example machine the archive of key `[7]` and certificate
`[9, 9]` has the three entries; on the machine without the script there is none. -/
theorem packageZIP_three_entries_witness :
    packageZIP (Cluster.platform exampleHost) (some [7]) (some [9, 9]) =
      (none, some [{ Name := "cert.pem", Data := [9, 9] }, { Name := "key.pem", Data := [7] },
                   { Name := "autorun.sh", Data := [35, 33] }]) ∧
    (packageZIP (Cluster.platform hostWithoutScript) (some [7]) (some [9, 9])).2 = none := by
  obtain ⟨runScript, archive, hread, hzip, harchive, _⟩ :=
    (packageZIP_three_entries (Cluster.platform exampleHost) (some [7]) (some [9, 9])).1
      (by decide)
  have hscript : runScript = [35, 33] := by
    have h : (Cluster.platform exampleHost).ReadFile "autorun.sh" = .ok [35, 33] := rfl
    rw [h] at hread
    cases hread
    rfl
  subst hscript
  subst harchive
  exact ⟨hzip,
    ((packageZIP_three_entries (Cluster.platform hostWithoutScript) (some [7])
      (some [9, 9])).2 (.Other "open: no such file or directory") rfl).2⟩

/-- Claim C11, at inputs on which it fails. A cluster role named
`node-1-cluster-role` exists before the pass for the Registered `node-1`:
`createUserAccount` on that cluster returns the AlreadyExists error of the backend, and
in the pass the creation of the role fails with it; yet `ObtainUserAccount` returns key
and certificate with a nil error, Deliver is invoked with them, and the pass returns
complete with a nil error. The same happens when it is the creation of the cluster
role binding that fails. -/
theorem grant_failure_not_returned :
    (createUserAccount (Cluster.platform exampleHost) (exampleNode Registered)
        (some [9, 9]) (some [7]) (Run.start clusterWithRole)).1 =
      some (.AlreadyExists "node-1-cluster-role") ∧
    Call.ClusterRolesCreate
        { Name := "node-1-cluster-role", Metadata := [],
          Rules := some [{ Verbs := ["get", "list", "watch"], APIGroups := [""],
                           Resources := ["pods"] }] }
        (some (.AlreadyExists "node-1-cluster-role")) ∈
      (Reconcile (Cluster.controller exampleHost 5) "node-1"
        (Run.start (Run.start clusterWithRole))).2.world.trace ∧
    (Reconcile (Cluster.controller exampleHost 5) "node-1"
        (Run.start (Run.start clusterWithRole))).2.trace =
      [.Get "node-1" none,
       .Eventf "Normal" "EdgeNodeRegistered" "Edgenode was registered by the registrar",
       .AuthenticateEdgeNode (exampleNode Registered) (.returned none),
       .ObtainUserAccount (exampleNode Registered) (.returned (some [7], some [9, 9], none)),
       .DeployFledge (some [7]) (some [9, 9]) (exampleNode Registered) (.returned none)] ∧
    (Reconcile (Cluster.controller exampleHost 5) "node-1"
        (Run.start (Run.start clusterWithRole))).1 =
      .returned ({ Requeue := false, RequeueAfter := 0 }, none) ∧
    Call.ClusterRoleBindingsCreate
        { Name := "node-1-cluster-role-binding",
          Subjects := [{ Kind := "User", Name := "node-1", Namespace := "default" }],
          RoleRef := { Kind := "ClusterRole", Name := "node-1-cluster-role" } }
        (some (.AlreadyExists "node-1-cluster-role-binding")) ∈
      (Reconcile (Cluster.controller exampleHost 5) "node-1"
        (Run.start (Run.start clusterWithBinding))).2.world.trace ∧
    Invocation.DeployFledge (some [7]) (some [9, 9]) (exampleNode Registered)
        (.returned none) ∈
      (Reconcile (Cluster.controller exampleHost 5) "node-1"
        (Run.start (Run.start clusterWithBinding))).2.trace ∧
    (Reconcile (Cluster.controller exampleHost 5) "node-1"
        (Run.start (Run.start clusterWithBinding))).1 =
      .returned ({ Requeue := false, RequeueAfter := 0 }, none) := by
  refine ⟨by decide, by decide, by decide, by decide, by decide, by decide, by decide⟩

end TrustEdge
